import Mathlib

/-! libssh-node: the asynchronous bridge between the host runtime and libssh

A shallow embedding of `src/async_workers.cc`, `src/ssh_session.cc`,
`src/ssh_channel.cc` and `src/utils.cc`.

* Library handles (`ssh_session`, `ssh_channel`) are `Option Nat`; `none` is `nullptr`.
* A `Napi::Promise::Deferred` is the number of the promise it settles.
* Every answer of the protocol library is a parameter: the functions below are
  the program's own control flow around those answers.
* What a function does besides returning is recorded as data: the library calls
  it makes (`LibCall`), the workers it queues (`Worker`), the promise
  settlements and stores a completion callback performs (`Effect`).
-/

namespace LibsshNode

/-- Library handle: `none` is `nullptr`, `some n` a live handle. -/
abbrev Ptr := Option Nat

/-- One `char` of a buffer. -/
abbrev Byte := Nat

/-- The NUL character, which ends a C string. -/
def NUL : Char := Char.ofNat 0

/-- What the library reads through the pointer `s.c_str()` of a `std::string`: the
text up to, and without, the first NUL character. -/
def c_str (s : String) : String :=
  String.mk (s.data.takeWhile (fun c => c != NUL))

/-- Status `SSH_OK` of the protocol library's public header. -/
def SSH_OK : Int := 0

/-- Status `SSH_ERROR` of the protocol library's public header. -/
def SSH_ERROR : Int := -1

/-- Status `SSH_AUTH_SUCCESS` of the protocol library's public header. -/
def SSH_AUTH_SUCCESS : Int := 0

/-- Host (JavaScript) values as far as the bridge inspects them. A number is
carried by its `Int32Value()`; a promise by the number of its deferred. -/
inductive JsValue where
  | undefined
  | boolean (b : Bool)
  | number (int32 : Int)
  | string (s : String)
  | buffer (bytes : List Byte)
  | object (id : Nat)
  | promise (deferred : Nat)
  deriving DecidableEq, Repr

/-- Test `Napi::Value::IsString()`. -/
def JsValue.IsString : JsValue → Bool
  | .string _ => true
  | _ => false

/-- Test `Napi::Value::IsNumber()`. -/
def JsValue.IsNumber : JsValue → Bool
  | .number _ => true
  | _ => false

/-- Test `Napi::Value::IsBuffer()`. -/
def JsValue.IsBuffer : JsValue → Bool
  | .buffer _ => true
  | _ => false

/-- Conversion `As<Napi::String>().Utf8Value()`; `none` when the host refuses the
conversion because the value is not a string. -/
def JsValue.Utf8Value : JsValue → Option String
  | .string s => some s
  | _ => none

/-- Conversion `As<Napi::Number>().Int32Value()`; `none` when the host refuses the
conversion because the value is not a number. -/
def JsValue.Int32Value : JsValue → Option Int
  | .number n => some n
  | _ => none

/-- Calls into the protocol library, with the arguments handed over; a text
argument is the C string the library reads. -/
inductive LibCall where
  | ssh_connect (session : Ptr)
  | ssh_disconnect (session : Ptr)
  | ssh_get_error (session : Ptr)
  | ssh_userauth_password (session : Ptr) (username : Option String) (password : String)
  | ssh_userauth_agent (session : Ptr) (username : Option String)
  | ssh_channel_new (session : Ptr)
  | ssh_channel_open_session (channel : Ptr)
  | ssh_channel_open_forward (channel : Ptr) (remoteHost : String) (remotePort : Int)
      (sourceHost : String) (sourcePort : Int)
  | ssh_channel_request_exec (channel : Ptr) (command : String)
  | ssh_channel_read (channel : Ptr) (count : Int) (isStderr : Int)
  | ssh_channel_write (channel : Ptr) (data : List Byte) (len : Nat)
  | ssh_channel_send_eof (channel : Ptr)
  | ssh_channel_close (channel : Ptr)
  | ssh_channel_free (channel : Ptr)
  | ssh_channel_is_open (channel : Ptr)
  | ssh_is_connected (session : Ptr)
  | ssh_free (session : Ptr)
  deriving DecidableEq, Repr

/-- What a completion callback does on the caller thread: settle a promise, or
store `true` into the `open_` member of the object a pointer designates. -/
inductive Effect where
  | resolve (deferred : Nat) (value : JsValue)
  | reject (deferred : Nat) (message : String)
  | storeOpen (target : Nat)
  deriving DecidableEq, Repr

/-- Answers of the protocol library to one task: the return value of the blocking
call, what `ssh_get_error` returns if asked (`none` is a null string), and the
memory found at the read buffer's `data()` pointer once the call has returned
(offset-indexed). -/
structure Reply where
  status : Int
  lastError : Option String
  memory : Nat → Byte

/-- A `std::vector<char>` seen through its `data()` pointer: `size` elements, and
the memory at `data()` by offset. Offsets from `size` on lie past the vector. -/
structure CharVector where
  size : Nat
  data : Nat → Byte

/-- Elements of the vector, in order. -/
def CharVector.toList (v : CharVector) : List Byte :=
  (List.range v.size).map v.data

/-- Copy made by `Napi::Buffer<char>::Copy(env, data, length)`: `length` bytes
read from `data` onwards. -/
def BufferCopy (data : Nat → Byte) (length : Nat) : List Byte :=
  (List.range length).map data

/-! ## Session workers (`async_workers.cc`) -/

/-- Class `ConnectWorker` with the members of its base `SSHAsyncWorker`. -/
structure ConnectWorker where
  session_ : Ptr
  result_ : Int
  errorMessage_ : String
  deferred_ : Nat

/-- Constructor of `ConnectWorker`. -/
def ConnectWorker.new (session : Ptr) (deferred : Nat) : ConnectWorker :=
  { session_ := session, result_ := SSH_ERROR, errorMessage_ := "", deferred_ := deferred }

/-- Method `ConnectWorker::Execute`. -/
def ConnectWorker.Execute (w : ConnectWorker) (reply : Reply) : ConnectWorker × List LibCall :=
  if reply.status ≠ SSH_OK then
    ({ w with
        result_ := reply.status
        errorMessage_ := match reply.lastError with
          | some error => error
          | none => "Connection failed" },
     [.ssh_connect w.session_, .ssh_get_error w.session_])
  else
    ({ w with result_ := reply.status }, [.ssh_connect w.session_])

/-- Method `ConnectWorker::OnOK`. -/
def ConnectWorker.OnOK (w : ConnectWorker) : List Effect :=
  [.resolve w.deferred_ .undefined]

/-- Method `ConnectWorker::OnError`. -/
def ConnectWorker.OnError (w : ConnectWorker) (error : String) : List Effect :=
  [.reject w.deferred_ error]

/-- Class `AuthPasswordWorker`. -/
structure AuthPasswordWorker where
  session_ : Ptr
  result_ : Int
  errorMessage_ : String
  username_ : String
  password_ : String
  deferred_ : Nat

/-- Constructor of `AuthPasswordWorker`. -/
def AuthPasswordWorker.new (session : Ptr) (username password : String) (deferred : Nat) :
    AuthPasswordWorker :=
  { session_ := session, result_ := SSH_ERROR, errorMessage_ := "",
    username_ := username, password_ := password, deferred_ := deferred }

/-- Method `AuthPasswordWorker::Execute`. -/
def AuthPasswordWorker.Execute (w : AuthPasswordWorker) (reply : Reply) :
    AuthPasswordWorker × List LibCall :=
  let call := LibCall.ssh_userauth_password w.session_
    (if w.username_.isEmpty then none else some (c_str w.username_)) (c_str w.password_)
  if reply.status ≠ SSH_AUTH_SUCCESS then
    ({ w with
        result_ := reply.status
        errorMessage_ := match reply.lastError with
          | some error => error
          | none => "Authentication failed" },
     [call, .ssh_get_error w.session_])
  else
    ({ w with result_ := reply.status }, [call])

/-- Method `AuthPasswordWorker::OnOK`. -/
def AuthPasswordWorker.OnOK (w : AuthPasswordWorker) : List Effect :=
  if w.result_ = SSH_AUTH_SUCCESS then [.resolve w.deferred_ .undefined]
  else [.reject w.deferred_ w.errorMessage_]

/-- Method `AuthPasswordWorker::OnError`. -/
def AuthPasswordWorker.OnError (w : AuthPasswordWorker) (error : String) : List Effect :=
  [.reject w.deferred_ error]

/-- Class `AuthAgentWorker`. -/
structure AuthAgentWorker where
  session_ : Ptr
  result_ : Int
  errorMessage_ : String
  username_ : String
  deferred_ : Nat

/-- Constructor of `AuthAgentWorker`. -/
def AuthAgentWorker.new (session : Ptr) (username : String) (deferred : Nat) : AuthAgentWorker :=
  { session_ := session, result_ := SSH_ERROR, errorMessage_ := "",
    username_ := username, deferred_ := deferred }

/-- Method `AuthAgentWorker::Execute`. -/
def AuthAgentWorker.Execute (w : AuthAgentWorker) (reply : Reply) :
    AuthAgentWorker × List LibCall :=
  let call := LibCall.ssh_userauth_agent w.session_
    (if w.username_.isEmpty then none else some (c_str w.username_))
  if reply.status ≠ SSH_AUTH_SUCCESS then
    ({ w with
        result_ := reply.status
        errorMessage_ := match reply.lastError with
          | some error => error
          | none => "Agent authentication failed" },
     [call, .ssh_get_error w.session_])
  else
    ({ w with result_ := reply.status }, [call])

/-- Method `AuthAgentWorker::OnOK`. -/
def AuthAgentWorker.OnOK (w : AuthAgentWorker) : List Effect :=
  if w.result_ = SSH_AUTH_SUCCESS then [.resolve w.deferred_ .undefined]
  else [.reject w.deferred_ w.errorMessage_]

/-- Method `AuthAgentWorker::OnError`. -/
def AuthAgentWorker.OnError (w : AuthAgentWorker) (error : String) : List Effect :=
  [.reject w.deferred_ error]

/-- Class `DisconnectWorker`. -/
structure DisconnectWorker where
  session_ : Ptr
  result_ : Int
  errorMessage_ : String
  deferred_ : Nat

/-- Constructor of `DisconnectWorker`. -/
def DisconnectWorker.new (session : Ptr) (deferred : Nat) : DisconnectWorker :=
  { session_ := session, result_ := SSH_ERROR, errorMessage_ := "", deferred_ := deferred }

/-- Method `DisconnectWorker::Execute`. -/
def DisconnectWorker.Execute (w : DisconnectWorker) : DisconnectWorker × List LibCall :=
  ({ w with result_ := SSH_OK }, [.ssh_disconnect w.session_])

/-- Method `DisconnectWorker::OnOK`. -/
def DisconnectWorker.OnOK (w : DisconnectWorker) : List Effect :=
  [.resolve w.deferred_ .undefined]

/-- Method `DisconnectWorker::OnError`. -/
def DisconnectWorker.OnError (w : DisconnectWorker) (error : String) : List Effect :=
  [.reject w.deferred_ error]

/-! ## Channel workers (`ssh_channel.cc`) -/

/-- Class `ChannelOpenWorker`. -/
structure ChannelOpenWorker where
  channel_ : Ptr
  deferred_ : Nat
  result_ : Int
  errorMessage_ : String

/-- Constructor of `ChannelOpenWorker`. -/
def ChannelOpenWorker.new (channel : Ptr) (deferred : Nat) : ChannelOpenWorker :=
  { channel_ := channel, deferred_ := deferred, result_ := SSH_ERROR, errorMessage_ := "" }

/-- Method `ChannelOpenWorker::Execute`. -/
def ChannelOpenWorker.Execute (w : ChannelOpenWorker) (reply : Reply) :
    ChannelOpenWorker × List LibCall :=
  if reply.status ≠ SSH_OK then
    ({ w with result_ := reply.status, errorMessage_ := "Failed to open channel session" },
     [.ssh_channel_open_session w.channel_])
  else
    ({ w with result_ := reply.status }, [.ssh_channel_open_session w.channel_])

/-- Method `ChannelOpenWorker::OnOK`. The pointer it stores through is the
environment's instance data (`instanceData`, `none` when null), which
`SSHChannel::Init` set to the constructor reference; the worker holds no pointer
to the `SSHChannel` object that queued it. -/
def ChannelOpenWorker.OnOK (w : ChannelOpenWorker) (instanceData : Option Nat) : List Effect :=
  if w.result_ = SSH_OK then
    match instanceData with
    | some channelObj => [.storeOpen channelObj, .resolve w.deferred_ .undefined]
    | none => [.resolve w.deferred_ .undefined]
  else [.reject w.deferred_ w.errorMessage_]

/-- Method `ChannelOpenWorker::OnError`. -/
def ChannelOpenWorker.OnError (w : ChannelOpenWorker) (error : String) : List Effect :=
  [.reject w.deferred_ error]

/-- Class `ChannelForwardWorker`. -/
structure ChannelForwardWorker where
  channel_ : Ptr
  remoteHost_ : String
  remotePort_ : Int
  sourceHost_ : String
  sourcePort_ : Int
  deferred_ : Nat
  result_ : Int
  errorMessage_ : String

/-- Constructor of `ChannelForwardWorker`. -/
def ChannelForwardWorker.new (channel : Ptr) (remoteHost : String) (remotePort : Int)
    (sourceHost : String) (sourcePort : Int) (deferred : Nat) : ChannelForwardWorker :=
  { channel_ := channel, remoteHost_ := remoteHost, remotePort_ := remotePort,
    sourceHost_ := sourceHost, sourcePort_ := sourcePort, deferred_ := deferred,
    result_ := SSH_ERROR, errorMessage_ := "" }

/-- Method `ChannelForwardWorker::Execute`. -/
def ChannelForwardWorker.Execute (w : ChannelForwardWorker) (reply : Reply) :
    ChannelForwardWorker × List LibCall :=
  let call := LibCall.ssh_channel_open_forward w.channel_ (c_str w.remoteHost_) w.remotePort_
    (c_str w.sourceHost_) w.sourcePort_
  if reply.status ≠ SSH_OK then
    ({ w with result_ := reply.status, errorMessage_ := "Failed to open forward channel" }, [call])
  else
    ({ w with result_ := reply.status }, [call])

/-- Method `ChannelForwardWorker::OnOK`. -/
def ChannelForwardWorker.OnOK (w : ChannelForwardWorker) : List Effect :=
  if w.result_ = SSH_OK then [.resolve w.deferred_ .undefined]
  else [.reject w.deferred_ w.errorMessage_]

/-- Method `ChannelForwardWorker::OnError`. -/
def ChannelForwardWorker.OnError (w : ChannelForwardWorker) (error : String) : List Effect :=
  [.reject w.deferred_ error]

/-- Class `ChannelReadWorker`. -/
structure ChannelReadWorker where
  channel_ : Ptr
  maxBytes_ : Int
  deferred_ : Nat
  buffer_ : CharVector
  bytesRead_ : Int
  errorMessage_ : String

/-- Constructor of `ChannelReadWorker`, for `maxBytes >= 0`: `buffer_.resize(maxBytes)`
gives `maxBytes` zero bytes. (A negative `maxBytes` makes `resize` throw; see
`SSHChannel.Read`.) -/
def ChannelReadWorker.new (channel : Ptr) (maxBytes : Int) (deferred : Nat) : ChannelReadWorker :=
  { channel_ := channel, maxBytes_ := maxBytes, deferred_ := deferred,
    buffer_ := { size := maxBytes.toNat, data := fun _ => 0 },
    bytesRead_ := 0, errorMessage_ := "" }

/-- Method `ChannelReadWorker::Execute`: one `ssh_channel_read` into `buffer_.data()`. -/
def ChannelReadWorker.Execute (w : ChannelReadWorker) (reply : Reply) :
    ChannelReadWorker × List LibCall :=
  let call := LibCall.ssh_channel_read w.channel_ w.maxBytes_ 0
  let filled : CharVector := { w.buffer_ with data := reply.memory }
  if reply.status < 0 then
    ({ w with buffer_ := filled, bytesRead_ := reply.status,
              errorMessage_ := "Failed to read from channel" }, [call])
  else
    ({ w with buffer_ := filled, bytesRead_ := reply.status }, [call])

/-- Method `ChannelReadWorker::OnOK`. -/
def ChannelReadWorker.OnOK (w : ChannelReadWorker) : List Effect :=
  if w.bytesRead_ ≥ 0 then
    [.resolve w.deferred_ (.buffer (BufferCopy w.buffer_.data w.bytesRead_.toNat))]
  else [.reject w.deferred_ w.errorMessage_]

/-- Method `ChannelReadWorker::OnError`. -/
def ChannelReadWorker.OnError (w : ChannelReadWorker) (error : String) : List Effect :=
  [.reject w.deferred_ error]

/-- Class `ChannelWriteWorker`. -/
structure ChannelWriteWorker where
  channel_ : Ptr
  data_ : List Byte
  deferred_ : Nat
  bytesWritten_ : Int
  errorMessage_ : String

/-- Constructor of `ChannelWriteWorker`. -/
def ChannelWriteWorker.new (channel : Ptr) (data : List Byte) (deferred : Nat) :
    ChannelWriteWorker :=
  { channel_ := channel, data_ := data, deferred_ := deferred,
    bytesWritten_ := 0, errorMessage_ := "" }

/-- Method `ChannelWriteWorker::Execute`: one `ssh_channel_write` of `data_`. -/
def ChannelWriteWorker.Execute (w : ChannelWriteWorker) (reply : Reply) :
    ChannelWriteWorker × List LibCall :=
  let call := LibCall.ssh_channel_write w.channel_ w.data_ w.data_.length
  if reply.status < 0 then
    ({ w with bytesWritten_ := reply.status, errorMessage_ := "Failed to write to channel" },
     [call])
  else
    ({ w with bytesWritten_ := reply.status }, [call])

/-- Method `ChannelWriteWorker::OnOK`. -/
def ChannelWriteWorker.OnOK (w : ChannelWriteWorker) : List Effect :=
  if w.bytesWritten_ ≥ 0 then [.resolve w.deferred_ (.number w.bytesWritten_)]
  else [.reject w.deferred_ w.errorMessage_]

/-- Method `ChannelWriteWorker::OnError`. -/
def ChannelWriteWorker.OnError (w : ChannelWriteWorker) (error : String) : List Effect :=
  [.reject w.deferred_ error]

/-- Class `ChannelExecWorker`. -/
structure ChannelExecWorker where
  channel_ : Ptr
  command_ : String
  deferred_ : Nat
  result_ : Int
  errorMessage_ : String

/-- Constructor of `ChannelExecWorker`. -/
def ChannelExecWorker.new (channel : Ptr) (command : String) (deferred : Nat) :
    ChannelExecWorker :=
  { channel_ := channel, command_ := command, deferred_ := deferred,
    result_ := SSH_ERROR, errorMessage_ := "" }

/-- Method `ChannelExecWorker::Execute`. -/
def ChannelExecWorker.Execute (w : ChannelExecWorker) (reply : Reply) :
    ChannelExecWorker × List LibCall :=
  let call := LibCall.ssh_channel_request_exec w.channel_ (c_str w.command_)
  if reply.status ≠ SSH_OK then
    ({ w with result_ := reply.status, errorMessage_ := "Failed to execute command" }, [call])
  else
    ({ w with result_ := reply.status }, [call])

/-- Method `ChannelExecWorker::OnOK`. -/
def ChannelExecWorker.OnOK (w : ChannelExecWorker) : List Effect :=
  if w.result_ = SSH_OK then [.resolve w.deferred_ .undefined]
  else [.reject w.deferred_ w.errorMessage_]

/-- Method `ChannelExecWorker::OnError`. -/
def ChannelExecWorker.OnError (w : ChannelExecWorker) (error : String) : List Effect :=
  [.reject w.deferred_ error]

/-- Class `ChannelCloseWorker`. -/
structure ChannelCloseWorker where
  channel_ : Ptr
  deferred_ : Nat

/-- Constructor of `ChannelCloseWorker`. -/
def ChannelCloseWorker.new (channel : Ptr) (deferred : Nat) : ChannelCloseWorker :=
  { channel_ := channel, deferred_ := deferred }

/-- Method `ChannelCloseWorker::Execute`. -/
def ChannelCloseWorker.Execute (w : ChannelCloseWorker) : ChannelCloseWorker × List LibCall :=
  (w, [.ssh_channel_send_eof w.channel_, .ssh_channel_close w.channel_])

/-- Method `ChannelCloseWorker::OnOK`. -/
def ChannelCloseWorker.OnOK (w : ChannelCloseWorker) : List Effect :=
  [.resolve w.deferred_ .undefined]

/-- Method `ChannelCloseWorker::OnError`. -/
def ChannelCloseWorker.OnError (w : ChannelCloseWorker) (error : String) : List Effect :=
  [.reject w.deferred_ error]

/-! ## The ten worker kinds and the host's dispatch -/

/-- Any of the ten concrete `Napi::AsyncWorker` subclasses of the bridge. -/
inductive Worker where
  | connect (w : ConnectWorker)
  | disconnect (w : DisconnectWorker)
  | authPassword (w : AuthPasswordWorker)
  | authAgent (w : AuthAgentWorker)
  | channelOpen (w : ChannelOpenWorker)
  | channelForward (w : ChannelForwardWorker)
  | channelExec (w : ChannelExecWorker)
  | channelRead (w : ChannelReadWorker)
  | channelWrite (w : ChannelWriteWorker)
  | channelClose (w : ChannelCloseWorker)

/-- Virtual `Execute()`: the worker after the background phase, and the library
calls that phase made. -/
def Worker.Execute (reply : Reply) : Worker → Worker × List LibCall
  | .connect w => ((w.Execute reply).1 |> .connect, (w.Execute reply).2)
  | .disconnect w => (w.Execute.1 |> .disconnect, w.Execute.2)
  | .authPassword w => ((w.Execute reply).1 |> .authPassword, (w.Execute reply).2)
  | .authAgent w => ((w.Execute reply).1 |> .authAgent, (w.Execute reply).2)
  | .channelOpen w => ((w.Execute reply).1 |> .channelOpen, (w.Execute reply).2)
  | .channelForward w => ((w.Execute reply).1 |> .channelForward, (w.Execute reply).2)
  | .channelExec w => ((w.Execute reply).1 |> .channelExec, (w.Execute reply).2)
  | .channelRead w => ((w.Execute reply).1 |> .channelRead, (w.Execute reply).2)
  | .channelWrite w => ((w.Execute reply).1 |> .channelWrite, (w.Execute reply).2)
  | .channelClose w => (w.Execute.1 |> .channelClose, w.Execute.2)

/-- Virtual `OnOK()`. -/
def Worker.OnOK (instanceData : Option Nat) : Worker → List Effect
  | .connect w => w.OnOK
  | .disconnect w => w.OnOK
  | .authPassword w => w.OnOK
  | .authAgent w => w.OnOK
  | .channelOpen w => w.OnOK instanceData
  | .channelForward w => w.OnOK
  | .channelExec w => w.OnOK
  | .channelRead w => w.OnOK
  | .channelWrite w => w.OnOK
  | .channelClose w => w.OnOK

/-- Virtual `OnError(error)`. -/
def Worker.OnError (error : String) : Worker → List Effect
  | .connect w => w.OnError error
  | .disconnect w => w.OnError error
  | .authPassword w => w.OnError error
  | .authAgent w => w.OnError error
  | .channelOpen w => w.OnError error
  | .channelForward w => w.OnError error
  | .channelExec w => w.OnError error
  | .channelRead w => w.OnError error
  | .channelWrite w => w.OnError error
  | .channelClose w => w.OnError error

/-- The host's handling of a queued worker (`Napi::AsyncWorker`, consumed at its
interface): `Execute()` runs on a pool thread; back on the caller thread the
host calls `OnOK()` when the background phase ended without an execution fault,
and `OnError(fault)` when it faulted. None of the workers calls `SetError`, so a
protocol failure is not an execution fault. -/
def Worker.complete (w : Worker) (reply : Reply) (fault : Option String)
    (instanceData : Option Nat) : List Effect :=
  match fault with
  | none => (w.Execute reply).1.OnOK instanceData
  | some error => w.OnError error

/-- Number of `Resolve` calls among the effects. -/
def resolveCount : List Effect → Nat
  | [] => 0
  | .resolve _ _ :: rest => resolveCount rest + 1
  | _ :: rest => resolveCount rest

/-- Number of `Reject` calls among the effects. -/
def rejectCount : List Effect → Nat
  | [] => 0
  | .reject _ _ :: rest => rejectCount rest + 1
  | _ :: rest => rejectCount rest

/-- The deferred a worker holds: the promise its entry point returned. -/
def Worker.deferred : Worker → Nat
  | .connect w => w.deferred_
  | .disconnect w => w.deferred_
  | .authPassword w => w.deferred_
  | .authAgent w => w.deferred_
  | .channelOpen w => w.deferred_
  | .channelForward w => w.deferred_
  | .channelExec w => w.deferred_
  | .channelRead w => w.deferred_
  | .channelWrite w => w.deferred_
  | .channelClose w => w.deferred_

/-! ## Error translation (`utils.cc`) -/

/-- Text of `CreateSSHError(env, session)`; `lastError` is what `ssh_get_error`
returns when called (`none` is a null string). -/
def CreateSSHError (session : Ptr) (lastError : Option String) : String :=
  let errorMsg := "SSH Error"
  if session ≠ none then
    match lastError with
    | some error => error
    | none => errorMsg
  else errorMsg

/-- Text of `CreateSSHError(env, session, message)`. -/
def CreateSSHErrorWithMessage (session : Ptr) (lastError : Option String) (message : String) :
    String :=
  let oss := message
  if session ≠ none then
    match lastError with
    | some error => oss ++ ": " ++ error
    | none => oss
  else oss

/-- Reference definition of the error text, following the specification: the text
is `"<message>: <protocol-last-error>"` when a protocol error string is
available, else just `<message>`, else a generic default. The protocol error
string is available when there is a session to ask and the library returns one. -/
def errorTextReference (session : Ptr) (lastError : Option String) (message : Option String) :
    String :=
  let available : Option String := if session.isSome then lastError else none
  match message, available with
  | some m, some e => m ++ ": " ++ e
  | some m, none => m
  | none, some e => e
  | none, none => "SSH Error"

/-! ## Entry points: what a call leaves behind -/

/-- How an entry point hands control back to the host. -/
inductive Completion where
  /-- Normal return of a value, no exception pending. -/
  | returned (value : JsValue)
  /-- Statement `Napi::Error::New(env, message).ThrowAsJavaScriptException()` followed by
  `return env.Undefined()`. -/
  | threw (message : String)
  /-- The host refused an `As<T>()` conversion of an argument of the wrong type. -/
  | conversionRefused
  /-- A C++ exception of the standard library left the entry point. -/
  | cppException
  deriving DecidableEq, Repr

/-- Outcome of one entry-point call on an object of type `σ`: the object afterwards,
how the call completed, the workers it queued and the library calls it made on
the caller thread, in order. -/
structure CallResult (σ : Type) where
  self : σ
  completion : Completion
  queued : List Worker
  calls : List LibCall

/-- Argument `info[i]`: the host gives `undefined` past `info.Length()`. -/
def arg (info : List JsValue) (i : Nat) : JsValue :=
  info.getD i .undefined

/-! ## Channel (`ssh_channel.cc`) -/

/-- A `Napi::Reference<Napi::Value>`: the value kept alive and the reference count. -/
structure Reference where
  value : JsValue
  refcount : Nat
  deriving DecidableEq, Repr

/-- Data members of class `SSHChannel`; `sessionRef_` is `none` while the reference
is empty. -/
structure SSHChannel where
  session_ : Ptr
  channel_ : Ptr
  open_ : Bool
  sessionRef_ : Option Reference
  deriving DecidableEq, Repr

/-- Constructor `SSHChannel::SSHChannel`. -/
def SSHChannel.new : SSHChannel :=
  { session_ := none, channel_ := none, open_ := false, sessionRef_ := none }

/-- Function `SSHChannel::NewInstance`: the freshly wrapped channel. -/
def SSHChannel.NewInstance (session : Ptr) (sessionRef : JsValue) : SSHChannel :=
  { SSHChannel.new with
    session_ := session
    sessionRef_ := some { value := sessionRef, refcount := 1 } }

/-- Destructor `SSHChannel::~SSHChannel`: the members afterwards and the library
calls made. -/
def SSHChannel.destroy (self : SSHChannel) : SSHChannel × List LibCall :=
  if self.channel_ ≠ none ∧ self.open_ = true then
    ({ self with channel_ := none, sessionRef_ := none },
     [.ssh_channel_close self.channel_, .ssh_channel_free self.channel_])
  else
    ({ self with sessionRef_ := none }, [])

/-- Method `SSHChannel::OpenSession`; `ssh_channel_new` is the library's answer to
the allocation and `deferred` the promise `Deferred::New` creates. -/
def SSHChannel.OpenSession (self : SSHChannel) (ssh_channel_new : Ptr) (deferred : Nat) :
    CallResult SSHChannel :=
  if self.channel_ ≠ none then
    { self := self, completion := .threw "Channel already opened", queued := [], calls := [] }
  else
    let self1 := { self with channel_ := ssh_channel_new }
    if self1.channel_ = none then
      { self := self1, completion := .threw "Failed to create channel", queued := [],
        calls := [.ssh_channel_new self.session_] }
    else
      { self := self1, completion := .returned (.promise deferred),
        queued := [.channelOpen (ChannelOpenWorker.new self1.channel_ deferred)],
        calls := [.ssh_channel_new self.session_] }

/-- Method `SSHChannel::RequestExec`. -/
def SSHChannel.RequestExec (self : SSHChannel) (info : List JsValue) (deferred : Nat) :
    CallResult SSHChannel :=
  if !self.open_ then
    { self := self, completion := .threw "Channel is not open", queued := [], calls := [] }
  else if info.length < 1 || !(arg info 0).IsString then
    { self := self, completion := .threw "Expected command string", queued := [], calls := [] }
  else
    match (arg info 0).Utf8Value with
    | none => { self := self, completion := .conversionRefused, queued := [], calls := [] }
    | some command =>
      { self := self, completion := .returned (.promise deferred),
        queued := [.channelExec (ChannelExecWorker.new self.channel_ command deferred)],
        calls := [] }

/-- Method `SSHChannel::RequestForwardTcpIp`. A refused conversion of `info[0]` or
`info[1]` is taken to end the call there. -/
def SSHChannel.RequestForwardTcpIp (self : SSHChannel) (info : List JsValue)
    (ssh_channel_new : Ptr) (deferred : Nat) : CallResult SSHChannel :=
  if info.length < 2 then
    { self := self, completion := .threw "Expected remoteHost and remotePort", queued := [],
      calls := [] }
  else
    match (arg info 0).Utf8Value, (arg info 1).Int32Value with
    | some remoteHost, some remotePort =>
      let sourceHost : String :=
        if info.length > 2 && (arg info 2).IsString then
          ((arg info 2).Utf8Value).getD "127.0.0.1"
        else "127.0.0.1"
      let sourcePort : Int :=
        if info.length > 3 && (arg info 3).IsNumber then
          ((arg info 3).Int32Value).getD 0
        else 0
      if self.channel_ = none then
        let self1 := { self with channel_ := ssh_channel_new }
        if self1.channel_ = none then
          { self := self1, completion := .threw "Failed to create channel", queued := [],
            calls := [.ssh_channel_new self.session_] }
        else
          { self := self1, completion := .returned (.promise deferred),
            queued := [.channelForward (ChannelForwardWorker.new self1.channel_ remoteHost
              remotePort sourceHost sourcePort deferred)],
            calls := [.ssh_channel_new self.session_] }
      else
        { self := self, completion := .returned (.promise deferred),
          queued := [.channelForward (ChannelForwardWorker.new self.channel_ remoteHost
            remotePort sourceHost sourcePort deferred)],
          calls := [] }
    | _, _ => { self := self, completion := .conversionRefused, queued := [], calls := [] }

/-- Method `SSHChannel::Read`. With a negative `maxBytes` the worker's constructor
calls `buffer_.resize` with a size beyond `max_size()`, which throws. -/
def SSHChannel.Read (self : SSHChannel) (info : List JsValue) (deferred : Nat) :
    CallResult SSHChannel :=
  if !self.open_ then
    { self := self, completion := .threw "Channel is not open", queued := [], calls := [] }
  else
    let maxBytes : Int :=
      if info.length > 0 && (arg info 0).IsNumber then ((arg info 0).Int32Value).getD 65536
      else 65536
    if maxBytes < 0 then
      { self := self, completion := .cppException, queued := [], calls := [] }
    else
      { self := self, completion := .returned (.promise deferred),
        queued := [.channelRead (ChannelReadWorker.new self.channel_ maxBytes deferred)],
        calls := [] }

/-- Method `SSHChannel::Write`. -/
def SSHChannel.Write (self : SSHChannel) (info : List JsValue) (deferred : Nat) :
    CallResult SSHChannel :=
  if !self.open_ then
    { self := self, completion := .threw "Channel is not open", queued := [], calls := [] }
  else if info.length < 1 || !(arg info 0).IsBuffer then
    { self := self, completion := .threw "Expected Buffer", queued := [], calls := [] }
  else
    match arg info 0 with
    | .buffer data =>
      { self := self, completion := .returned (.promise deferred),
        queued := [.channelWrite (ChannelWriteWorker.new self.channel_ data deferred)],
        calls := [] }
    | _ => { self := self, completion := .conversionRefused, queued := [], calls := [] }

/-- Method `SSHChannel::Close`. -/
def SSHChannel.Close (self : SSHChannel) (deferred : Nat) : CallResult SSHChannel :=
  if !self.open_ then
    { self := self, completion := .returned .undefined, queued := [], calls := [] }
  else
    { self := { self with open_ := false }, completion := .returned (.promise deferred),
      queued := [.channelClose (ChannelCloseWorker.new self.channel_ deferred)], calls := [] }

/-- Method `SSHChannel::IsOpen`; `ssh_channel_is_open` is the library's answer, asked
only when `open_` holds. -/
def SSHChannel.IsOpen (self : SSHChannel) (ssh_channel_is_open : Bool) : CallResult SSHChannel :=
  if self.open_ then
    { self := self, completion := .returned (.boolean ssh_channel_is_open), queued := [],
      calls := [.ssh_channel_is_open self.channel_] }
  else
    { self := self, completion := .returned (.boolean false), queued := [], calls := [] }

/-- What one effect of a completion callback does to the `SSHChannel` object living
at `address`: a store through a pointer reaches the object's `open_` member
only when the pointer designates that object; settling a promise touches no
member. -/
def SSHChannel.applyEffect (address : Nat) (self : SSHChannel) : Effect → SSHChannel
  | .storeOpen target => if target = address then { self with open_ := true } else self
  | .resolve _ _ => self
  | .reject _ _ => self

/-- Effects of a completion callback, applied in order. -/
def SSHChannel.applyEffects (address : Nat) (self : SSHChannel) (effects : List Effect) :
    SSHChannel :=
  effects.foldl (SSHChannel.applyEffect address) self

/-! ## Session (`ssh_session.cc`) -/

/-- Data members of class `SSHSession`. -/
structure SSHSession where
  session_ : Ptr
  connected_ : Bool
  deriving DecidableEq, Repr

/-- Constructor `SSHSession::SSHSession`; `ssh_new` is the library's answer. The
options of the constructor argument go to the library and touch no member. -/
def SSHSession.new (ssh_new : Ptr) : SSHSession :=
  { session_ := ssh_new, connected_ := false }

/-- Destructor `SSHSession::~SSHSession`. -/
def SSHSession.destroy (self : SSHSession) : SSHSession × List LibCall :=
  if self.session_ ≠ none then
    ({ self with session_ := none },
     (if self.connected_ then [LibCall.ssh_disconnect self.session_] else []) ++
       [.ssh_free self.session_])
  else (self, [])

/-- Method `SSHSession::Connect`. -/
def SSHSession.Connect (self : SSHSession) (deferred : Nat) : CallResult SSHSession :=
  { self := { self with connected_ := true }, completion := .returned (.promise deferred),
    queued := [.connect (ConnectWorker.new self.session_ deferred)], calls := [] }

/-- Method `SSHSession::Disconnect`. -/
def SSHSession.Disconnect (self : SSHSession) (deferred : Nat) : CallResult SSHSession :=
  { self := { self with connected_ := false }, completion := .returned (.promise deferred),
    queued := [.disconnect (DisconnectWorker.new self.session_ deferred)], calls := [] }

/-- Method `SSHSession::AuthenticatePassword`. -/
def SSHSession.AuthenticatePassword (self : SSHSession) (info : List JsValue) (deferred : Nat) :
    CallResult SSHSession :=
  if info.length < 2 then
    { self := self, completion := .threw "Expected username and password", queued := [],
      calls := [] }
  else
    match (arg info 0).Utf8Value, (arg info 1).Utf8Value with
    | some username, some password =>
      { self := self, completion := .returned (.promise deferred),
        queued := [.authPassword (AuthPasswordWorker.new self.session_ username password
          deferred)],
        calls := [] }
    | _, _ => { self := self, completion := .conversionRefused, queued := [], calls := [] }

/-- Method `SSHSession::AuthenticateAgent`. -/
def SSHSession.AuthenticateAgent (self : SSHSession) (info : List JsValue) (deferred : Nat) :
    CallResult SSHSession :=
  let username : String :=
    if info.length > 0 && (arg info 0).IsString then ((arg info 0).Utf8Value).getD "" else ""
  { self := self, completion := .returned (.promise deferred),
    queued := [.authAgent (AuthAgentWorker.new self.session_ username deferred)], calls := [] }

/-- Method `SSHSession::IsConnected`. -/
def SSHSession.IsConnected (self : SSHSession) (ssh_is_connected : Bool) :
    CallResult SSHSession :=
  if self.connected_ then
    { self := self, completion := .returned (.boolean ssh_is_connected), queued := [],
      calls := [.ssh_is_connected self.session_] }
  else
    { self := self, completion := .returned (.boolean false), queued := [], calls := [] }

/-- Outcome of `createChannel`: the call's outcome and the `SSHChannel` objects it
constructed. -/
structure CreateChannelResult extends CallResult SSHSession where
  constructed : List SSHChannel

/-- Method `SSHSession::CreateChannel`; `instanceData` is the environment's instance
data (`none` when null), `selfValue` the session's own host object (`Value()`)
and `newObject` the identity of the object `constructor->New` creates. -/
def SSHSession.CreateChannel (self : SSHSession) (instanceData : Option Nat)
    (selfValue : JsValue) (newObject : Nat) : CreateChannelResult :=
  if !self.connected_ then
    { self := self, completion := .threw "Session is not connected", queued := [], calls := [],
      constructed := [] }
  else
    match instanceData with
    | none =>
      { self := self, completion := .threw "Channel constructor not available", queued := [],
        calls := [], constructed := [] }
    | some _ =>
      { self := self, completion := .returned (.object newObject), queued := [], calls := [],
        constructed := [SSHChannel.NewInstance self.session_ selfValue] }

/-- What happens to a Session between two `createChannel` calls, as far as its
members are concerned: a `connect()` call, a `disconnect()` call, or the
completion of a queued task with the library's answer and a possible fault. -/
inductive SessionEvent where
  | connectCall (deferred : Nat)
  | disconnectCall (deferred : Nat)
  | taskCompleted (w : Worker) (reply : Reply) (fault : Option String)

/-- The Session after one event. No worker holds a pointer to the `SSHSession`
object (only the library handle), and no completion callback names a member of
it, so a completing task leaves the members as they are. -/
def SSHSession.step (self : SSHSession) : SessionEvent → SSHSession
  | .connectCall deferred => (self.Connect deferred).self
  | .disconnectCall deferred => (self.Disconnect deferred).self
  | .taskCompleted _ _ _ => self

/-- The Session after a sequence of events. -/
def SSHSession.after (self : SSHSession) (events : List SessionEvent) : SSHSession :=
  events.foldl SSHSession.step self

/-- Whether an event is a `connect()` call. -/
def SessionEvent.isConnectCall : SessionEvent → Bool
  | .connectCall _ => true
  | _ => false

/-- Whether an event is the completion of a connect task with status `SSH_OK` and
no execution fault. -/
def SessionEvent.isSuccessfulConnect : SessionEvent → Bool
  | .taskCompleted (.connect _) reply none => reply.status == SSH_OK
  | _ => false

/-- Promises the effects settle, one entry per `Resolve` or `Reject`, in order. -/
def settledDeferreds : List Effect → List Nat
  | [] => []
  | .resolve deferred _ :: rest => deferred :: settledDeferreds rest
  | .reject deferred _ :: rest => deferred :: settledDeferreds rest
  | .storeOpen _ :: rest => settledDeferreds rest

/-- A library answer reporting `SSH_OK`, with no error string. -/
def okReply : Reply :=
  { status := SSH_OK, lastError := none, memory := fun _ => 0 }

/-- A library answer reporting `SSH_ERROR`, with the given error string. -/
def errorReply (lastError : Option String) : Reply :=
  { status := SSH_ERROR, lastError := lastError, memory := fun _ => 0 }

/-- Status `SSH_AUTH_DENIED` of the protocol library's public header. -/
def SSH_AUTH_DENIED : Int := 1

/-- Status `SSH_AUTH_PARTIAL` of the protocol library's public header. -/
def SSH_AUTH_PARTIAL : Int := 2

/-- Status `SSH_AUTH_AGAIN` of the protocol library's public header. -/
def SSH_AUTH_AGAIN : Int := 4

/-- Status `SSH_AUTH_ERROR` of the protocol library's public header. -/
def SSH_AUTH_ERROR : Int := -1

/-- A text contains a pattern when the pattern occurs in it as a contiguous piece. -/
def Contains (text pattern : String) : Prop :=
  ∃ before after : String, text = before ++ pattern ++ after

/-! ## Sequences of operations on one Channel -/

/-- A call of one of the seven methods of a Channel, with its arguments and the
host's and the library's answers. -/
inductive ChannelCall where
  | openSession (ssh_channel_new : Ptr) (deferred : Nat)
  | requestExec (info : List JsValue) (deferred : Nat)
  | requestForwardTcpIp (info : List JsValue) (ssh_channel_new : Ptr) (deferred : Nat)
  | read (info : List JsValue) (deferred : Nat)
  | write (info : List JsValue) (deferred : Nat)
  | close (deferred : Nat)
  | isOpen (ssh_channel_is_open : Bool)

/-- Outcome of a method call on a Channel. -/
def SSHChannel.call (self : SSHChannel) : ChannelCall → CallResult SSHChannel
  | .openSession ssh_channel_new deferred => self.OpenSession ssh_channel_new deferred
  | .requestExec info deferred => self.RequestExec info deferred
  | .requestForwardTcpIp info ssh_channel_new deferred =>
    self.RequestForwardTcpIp info ssh_channel_new deferred
  | .read info deferred => self.Read info deferred
  | .write info deferred => self.Write info deferred
  | .close deferred => self.Close deferred
  | .isOpen ssh_channel_is_open => self.IsOpen ssh_channel_is_open

/-- What happens to a Channel between construction and destruction: a method call
on it, or the completion, on the caller thread, of any task queued in the
same environment. -/
inductive ChannelEvent where
  | call (c : ChannelCall)
  | taskCompleted (w : Worker) (reply : Reply) (fault : Option String)

/-- The Channel object living at `address` after one event, in an environment whose
instance data is `instanceData`. -/
def SSHChannel.step (address : Nat) (instanceData : Option Nat) (self : SSHChannel) :
    ChannelEvent → SSHChannel
  | .call c => (self.call c).self
  | .taskCompleted w reply fault =>
    SSHChannel.applyEffects address self (w.complete reply fault instanceData)

/-- The Channel after a sequence of events. -/
def SSHChannel.after (address : Nat) (instanceData : Option Nat) (self : SSHChannel)
    (events : List ChannelEvent) : SSHChannel :=
  events.foldl (SSHChannel.step address instanceData) self

/-- Whether a worker is a channel task holding a null channel handle. -/
def Worker.hasNullChannel : Worker → Bool
  | .channelOpen w => w.channel_.isNone
  | .channelForward w => w.channel_.isNone
  | .channelExec w => w.channel_.isNone
  | .channelRead w => w.channel_.isNone
  | .channelWrite w => w.channel_.isNone
  | .channelClose w => w.channel_.isNone
  | _ => false

/-- Whether a worker is one of the two open-channel tasks. -/
def Worker.isOpenAttempt : Worker → Bool
  | .channelOpen _ => true
  | .channelForward _ => true
  | _ => false

/-- References a Channel object holds. -/
def SSHChannel.references (self : SSHChannel) : List Reference :=
  self.sessionRef_.toList

/-- Rule of the host for wrapped objects (`Napi::ObjectWrap` and `Napi::Reference`,
consumed at their interface): the host may collect an object, and only then run
the destructor of the native object it wraps, when no live reference
designating it has a count above zero. -/
def mayFinalize (object : JsValue) (live : List Reference) : Bool :=
  live.all (fun r => r.value != object || r.refcount == 0)

/-! ## Theorems -/

/-- C1: for each of the ten worker kinds and every content of its members, `OnOK`
performs exactly one `Resolve` or exactly one `Reject` (never both, never
neither) and `OnError` exactly one `Reject`; so whichever continuation the host
runs after `Execute`, the worker's own promise is settled exactly once. -/
theorem worker_settles_exactly_once (w : Worker) (reply : Reply) (fault : Option String)
    (instanceData : Option Nat) (error : String) :
    resolveCount (w.OnOK instanceData) + rejectCount (w.OnOK instanceData) = 1 ∧
    settledDeferreds (w.OnOK instanceData) = [w.deferred] ∧
    resolveCount (w.OnError error) = 0 ∧ rejectCount (w.OnError error) = 1 ∧
    settledDeferreds (w.OnError error) = [w.deferred] ∧
    resolveCount (w.complete reply fault instanceData) +
      rejectCount (w.complete reply fault instanceData) = 1 := by
  have hOK : ∀ v : Worker, resolveCount (v.OnOK instanceData) +
      rejectCount (v.OnOK instanceData) = 1 := by
    intro v
    cases v with
    | channelOpen v =>
      cases instanceData <;>
        (simp only [Worker.OnOK, ChannelOpenWorker.OnOK]; split_ifs <;>
          simp [resolveCount, rejectCount])
    | _ =>
      simp only [Worker.OnOK, ConnectWorker.OnOK, DisconnectWorker.OnOK,
        AuthPasswordWorker.OnOK, AuthAgentWorker.OnOK, ChannelForwardWorker.OnOK,
        ChannelExecWorker.OnOK, ChannelReadWorker.OnOK, ChannelWriteWorker.OnOK,
        ChannelCloseWorker.OnOK]
      (try split_ifs) <;> simp [resolveCount, rejectCount]
  have hErr : ∀ (v : Worker) (e : String),
      resolveCount (v.OnError e) = 0 ∧ rejectCount (v.OnError e) = 1 := by
    intro v e
    cases v <;>
      simp [Worker.OnError, ConnectWorker.OnError, DisconnectWorker.OnError,
        AuthPasswordWorker.OnError, AuthAgentWorker.OnError, ChannelOpenWorker.OnError,
        ChannelForwardWorker.OnError, ChannelExecWorker.OnError, ChannelReadWorker.OnError,
        ChannelWriteWorker.OnError, ChannelCloseWorker.OnError, resolveCount, rejectCount]
  refine ⟨hOK w, ?_, (hErr w error).1, (hErr w error).2, ?_, ?_⟩
  · cases w with
    | channelOpen v =>
      cases instanceData <;>
        (simp only [Worker.OnOK, ChannelOpenWorker.OnOK, Worker.deferred]; split_ifs <;>
          simp [settledDeferreds])
    | _ =>
      simp only [Worker.OnOK, ConnectWorker.OnOK, DisconnectWorker.OnOK,
        AuthPasswordWorker.OnOK, AuthAgentWorker.OnOK, ChannelForwardWorker.OnOK,
        ChannelExecWorker.OnOK, ChannelReadWorker.OnOK, ChannelWriteWorker.OnOK,
        ChannelCloseWorker.OnOK, Worker.deferred]
      (try split_ifs) <;> simp [settledDeferreds]
  · cases w <;>
      simp [Worker.OnError, ConnectWorker.OnError, DisconnectWorker.OnError,
        AuthPasswordWorker.OnError, AuthAgentWorker.OnError, ChannelOpenWorker.OnError,
        ChannelForwardWorker.OnError, ChannelExecWorker.OnError, ChannelReadWorker.OnError,
        ChannelWriteWorker.OnError, ChannelCloseWorker.OnError, settledDeferreds,
        Worker.deferred]
  · cases fault with
    | none => exact hOK _
    | some e =>
      have h := hErr w e
      simp only [Worker.complete]
      omega

/-- C2 (the code at the failing input): whatever status the blocking connect call
returns and whatever error string the library supplies, the connect task
resolves its promise with `undefined`. In particular with status `SSH_ERROR`
and the error string "Connection refused" the message is stored in
`errorMessage_` by `Execute`, and `OnOK` resolves all the same. -/
theorem connect_task_resolves_on_failure :
    (∀ (session : Ptr) (deferred : Nat) (reply : Reply) (instanceData : Option Nat),
      (Worker.connect (ConnectWorker.new session deferred)).complete reply none instanceData
        = [.resolve deferred .undefined]) ∧
    (errorReply (some "Connection refused")).status ≠ SSH_OK ∧
    ((ConnectWorker.new (some 1) 7).Execute (errorReply (some "Connection refused"))).1.errorMessage_
      = "Connection refused" ∧
    ((ConnectWorker.new (some 1) 7).Execute (errorReply none)).1.errorMessage_
      = "Connection failed" ∧
    (Worker.connect (ConnectWorker.new (some 1) 7)).complete
      (errorReply (some "Connection refused")) none (some 100) = [.resolve 7 .undefined] := by
  refine ⟨?_, by decide, ?_, ?_, ?_⟩
  · intro session deferred reply instanceData
    simp only [Worker.complete, Worker.Execute, Worker.OnOK, ConnectWorker.OnOK,
      ConnectWorker.Execute, ConnectWorker.new]
    split_ifs <;> rfl
  · simp [ConnectWorker.Execute, ConnectWorker.new, errorReply, SSH_OK, SSH_ERROR]
  · simp [ConnectWorker.Execute, ConnectWorker.new, errorReply, SSH_OK, SSH_ERROR]
  · simp [Worker.complete, Worker.Execute, Worker.OnOK, ConnectWorker.OnOK,
      ConnectWorker.Execute, ConnectWorker.new, errorReply, SSH_OK, SSH_ERROR]

/-- C3 (the code at the failing input): a Channel object at address 200, created
for session handle 1, while the environment's instance data is the constructor
reference at address 100. After `openSession()` and the completion of its task
with status `SSH_OK`, and likewise after `requestForwardTcpIp("db", 5432)` and
the completion of its task with status `SSH_OK`, the promise is resolved, the
Channel's `open_` is still `false`, and `requestExec`, `read` and `write` throw
"Channel is not open". The forward worker's completion never stores into any
object at all. -/
theorem open_task_success_leaves_channel_unopened :
    ((SSHChannel.NewInstance (some 1) (.object 10)).OpenSession (some 5) 1).queued.map
        (fun w => w.complete okReply none (some 100))
      = [[.storeOpen 100, .resolve 1 .undefined]] ∧
    (SSHChannel.applyEffects 200
        ((SSHChannel.NewInstance (some 1) (.object 10)).OpenSession (some 5) 1).self
        [.storeOpen 100, .resolve 1 .undefined]).open_ = false ∧
    ((SSHChannel.applyEffects 200
        ((SSHChannel.NewInstance (some 1) (.object 10)).OpenSession (some 5) 1).self
        [.storeOpen 100, .resolve 1 .undefined]).RequestExec [.string "ls"] 2).completion
      = .threw "Channel is not open" ∧
    ((SSHChannel.NewInstance (some 1) (.object 10)).RequestForwardTcpIp
        [.string "db", .number 5432] (some 5) 1).queued.map
        (fun w => w.complete okReply none (some 100))
      = [[.resolve 1 .undefined]] ∧
    (SSHChannel.applyEffects 200
        ((SSHChannel.NewInstance (some 1) (.object 10)).RequestForwardTcpIp
          [.string "db", .number 5432] (some 5) 1).self
        [.resolve 1 .undefined]).open_ = false ∧
    ((SSHChannel.applyEffects 200
        ((SSHChannel.NewInstance (some 1) (.object 10)).RequestForwardTcpIp
          [.string "db", .number 5432] (some 5) 1).self
        [.resolve 1 .undefined]).Read [.number 16] 2).completion
      = .threw "Channel is not open" ∧
    ((SSHChannel.applyEffects 200
        ((SSHChannel.NewInstance (some 1) (.object 10)).RequestForwardTcpIp
          [.string "db", .number 5432] (some 5) 1).self
        [.resolve 1 .undefined]).Write [.buffer [104, 105]] 2).completion
      = .threw "Channel is not open" ∧
    (∀ (w : ChannelForwardWorker) (reply : Reply) (instanceData : Option Nat)
        (address : Nat) (self : SSHChannel),
      SSHChannel.applyEffects address self
        ((Worker.channelForward w).complete reply none instanceData) = self) := by
  refine ⟨?_, by decide, by decide, ?_, by decide, by decide, by decide, ?_⟩
  · simp [SSHChannel.OpenSession, SSHChannel.NewInstance, SSHChannel.new, Worker.complete,
      Worker.Execute, Worker.OnOK, ChannelOpenWorker.Execute, ChannelOpenWorker.OnOK,
      ChannelOpenWorker.new, okReply, SSH_OK]
  · simp [SSHChannel.RequestForwardTcpIp, SSHChannel.NewInstance, SSHChannel.new,
      Worker.complete, Worker.Execute, Worker.OnOK, ChannelForwardWorker.Execute,
      ChannelForwardWorker.OnOK, ChannelForwardWorker.new, okReply, SSH_OK, arg,
      JsValue.Utf8Value, JsValue.Int32Value]
  · intro w reply instanceData address self
    simp only [Worker.complete, Worker.Execute, Worker.OnOK, ChannelForwardWorker.OnOK,
      ChannelForwardWorker.Execute]
    split_ifs <;> simp [SSHChannel.applyEffects, SSHChannel.applyEffect]

/-- Events that are not `connect()` calls leave an unset `connected_` unset. -/
theorem SSHSession.after_not_connected (events : List SessionEvent)
    (hno : ∀ e ∈ events, e.isConnectCall = false) :
    ∀ self : SSHSession, self.connected_ = false → (self.after events).connected_ = false := by
  induction events with
  | nil => intro self h; simpa [SSHSession.after] using h
  | cons e rest ih =>
    intro self h
    have hrest : ∀ x ∈ rest, x.isConnectCall = false :=
      fun x hx => hno x (List.mem_cons_of_mem e hx)
    have he : e.isConnectCall = false := hno e (List.mem_cons_self e rest)
    have hstep : (self.step e).connected_ = false := by
      cases e with
      | connectCall d => simp [SessionEvent.isConnectCall] at he
      | disconnectCall d => simp [SSHSession.step, SSHSession.Disconnect]
      | taskCompleted w r f => simpa [SSHSession.step] using h
    have := ih hrest (self.step e) hstep
    simpa [SSHSession.after] using this

/-- The Session after `pre ++ post` is the Session after `pre`, then `post`. -/
theorem SSHSession.after_append (self : SSHSession) (pre post : List SessionEvent) :
    self.after (pre ++ post) = (self.after pre).after post := by
  simp [SSHSession.after, List.foldl_append]

/-- C4 (as stated, refuted): it is not so that `createChannel()` throws "Session is
not connected" on every Session with no successfully completed connect task.
On a new Session, right after the `connect()` call and before any task has
completed, `createChannel()` constructs a Channel. -/
theorem createChannel_before_connect_completes_counterexample :
    ¬ (∀ (events : List SessionEvent),
        (∀ e ∈ events, e.isSuccessfulConnect = false) →
        (((SSHSession.new (some 1)).after events).CreateChannel (some 100) (.object 10)
            11).completion = .threw "Session is not connected" ∧
        (((SSHSession.new (some 1)).after events).CreateChannel (some 100) (.object 10)
            11).constructed = []) := by
  intro h
  have h1 := (h [.connectCall 1] (by simp [SessionEvent.isSuccessfulConnect])).1
  revert h1
  decide

/-- No event changes the connection handle of a Session. -/
theorem SSHSession.after_session (events : List SessionEvent) :
    ∀ self : SSHSession, (self.after events).session_ = self.session_ := by
  induction events with
  | nil => intro self; rfl
  | cons e rest ih =>
    intro self
    have hstep : (self.step e).session_ = self.session_ := by
      cases e <;> rfl
    have := ih (self.step e)
    simp only [SSHSession.after, List.foldl_cons] at this ⊢
    rw [this, hstep]

/-- C4 (amended): on every Session on which `connect()` has not been called since
construction, or not since the latest `disconnect()` call, whatever tasks have
completed meanwhile, `createChannel()` throws "Session is not connected",
constructs no Channel, queues nothing, calls nothing and leaves the Session
as it is. The `connect()` call itself sets the flag: right after it, with its
task still pending, `createChannel()` constructs a Channel. -/
theorem createChannel_without_connect_call_throws (ssh_new : Ptr)
    (pre post : List SessionEvent) (deferred : Nat) (instanceData : Option Nat)
    (selfValue : JsValue) (newObject : Nat)
    (hpost : ∀ e ∈ post, e.isConnectCall = false) :
    ((SSHSession.new ssh_new).after post).CreateChannel instanceData selfValue newObject
      = { self := (SSHSession.new ssh_new).after post,
          completion := .threw "Session is not connected", queued := [], calls := [],
          constructed := [] } ∧
    ((SSHSession.new ssh_new).after (pre ++ .disconnectCall deferred :: post)).CreateChannel
        instanceData selfValue newObject
      = { self := (SSHSession.new ssh_new).after (pre ++ .disconnectCall deferred :: post),
          completion := .threw "Session is not connected", queued := [], calls := [],
          constructed := [] } ∧
    (∀ constructorRef : Nat,
      ((SSHSession.new ssh_new).after (pre ++ [.connectCall deferred])).CreateChannel
          (some constructorRef) selfValue newObject
        = { self := (SSHSession.new ssh_new).after (pre ++ [.connectCall deferred]),
            completion := .returned (.object newObject), queued := [], calls := [],
            constructed := [SSHChannel.NewInstance ssh_new selfValue] }) := by
  have key : ∀ s : SSHSession, s.connected_ = false →
      s.CreateChannel instanceData selfValue newObject
        = { self := s, completion := .threw "Session is not connected", queued := [],
            calls := [], constructed := [] } := by
    intro s hs
    simp [SSHSession.CreateChannel, hs]
  refine ⟨?_, ?_, ?_⟩
  · exact key _ (SSHSession.after_not_connected post hpost _ rfl)
  · apply key
    rw [SSHSession.after_append]
    have hd : (((SSHSession.new ssh_new).after pre).step
        (.disconnectCall deferred)).connected_ = false := by
      simp [SSHSession.step, SSHSession.Disconnect]
    have := SSHSession.after_not_connected post hpost _ hd
    simpa [SSHSession.after] using this
  · intro constructorRef
    have hc : ((SSHSession.new ssh_new).after (pre ++ [.connectCall deferred])).connected_
        = true := by
      rw [SSHSession.after_append]
      simp [SSHSession.after, SSHSession.step, SSHSession.Connect]
    have hs : ((SSHSession.new ssh_new).after (pre ++ [.connectCall deferred])).session_
        = ssh_new := by
      rw [SSHSession.after_session]
      rfl
    simp [SSHSession.CreateChannel, hc, hs]

/-- Witness for C4 (amended): a Session whose failed connect was followed by a
`disconnect()` call and the completion of the disconnect task. -/
theorem createChannel_without_connect_call_throws_witness :
    (((SSHSession.new (some 1)).after
        ([.connectCall 1, .taskCompleted (.connect (ConnectWorker.new (some 1) 1))
            (errorReply none) none] ++
          .disconnectCall 2 ::
            [.taskCompleted (.disconnect (DisconnectWorker.new (some 1) 2)) okReply none])
        ).CreateChannel (some 100) (.object 10) 11).completion
      = .threw "Session is not connected" :=
  congrArg (fun r => r.completion)
    (createChannel_without_connect_call_throws (some 1)
      [.connectCall 1, .taskCompleted (.connect (ConnectWorker.new (some 1) 1))
        (errorReply none) none]
      [.taskCompleted (.disconnect (DisconnectWorker.new (some 1) 2)) okReply none]
      2 (some 100) (.object 10) 11
      (by simp [SessionEvent.isConnectCall])).2.1

/-- C5: on every Channel whose `open_` is unset, for every argument list,
`requestExec`, `read` and `write` each throw "Channel is not open", queue no
task, make no library call and leave every member of the Channel as it was. -/
theorem channel_not_open_throws (self : SSHChannel) (info : List JsValue) (deferred : Nat)
    (hclosed : self.open_ = false) :
    self.RequestExec info deferred
      = { self := self, completion := .threw "Channel is not open", queued := [],
          calls := [] } ∧
    self.Read info deferred
      = { self := self, completion := .threw "Channel is not open", queued := [],
          calls := [] } ∧
    self.Write info deferred
      = { self := self, completion := .threw "Channel is not open", queued := [],
          calls := [] } := by
  simp [SSHChannel.RequestExec, SSHChannel.Read, SSHChannel.Write, hclosed]

/-- Witness for C5: `requestExec("ls")` on a Channel fresh from `createChannel()`. -/
theorem channel_not_open_throws_witness :
    (SSHChannel.NewInstance (some 1) (.object 10)).open_ = false ∧
    ((SSHChannel.NewInstance (some 1) (.object 10)).RequestExec [.string "ls"] 3).completion
      = .threw "Channel is not open" :=
  ⟨rfl, congrArg (fun r => r.completion)
    (channel_not_open_throws (SSHChannel.NewInstance (some 1) (.object 10))
      [.string "ls"] 3 rfl).1⟩

/-- Completion effects never touch the handle slot of a Channel. -/
theorem SSHChannel.applyEffects_channel (address : Nat) (effects : List Effect) :
    ∀ self : SSHChannel, (SSHChannel.applyEffects address self effects).channel_
      = self.channel_ := by
  induction effects with
  | nil => intro self; rfl
  | cons e rest ih =>
    intro self
    have hstep : (SSHChannel.applyEffect address self e).channel_ = self.channel_ := by
      cases e <;> simp only [SSHChannel.applyEffect]
      split_ifs <;> rfl
    have := ih (SSHChannel.applyEffect address self e)
    simp only [SSHChannel.applyEffects, List.foldl_cons] at this ⊢
    rw [this, hstep]

/-- C6: on every Channel whose handle slot is non-empty, `openSession()` throws
"Channel already opened", asks the library for no handle, queues no task and
leaves every member as it was. Hence once a first `openSession()` has queued
its task, a second `openSession()` fails this way whatever completion effects
have run in between. -/
theorem openSession_twice_throws (self : SSHChannel) (ssh_channel_new : Ptr)
    (deferred : Nat) (first : SSHChannel) (firstHandle : Ptr) (firstDeferred : Nat)
    (address : Nat) (effects : List Effect)
    (hslot : self.channel_ ≠ none)
    (hfirst : (first.OpenSession firstHandle firstDeferred).queued ≠ []) :
    self.OpenSession ssh_channel_new deferred
      = { self := self, completion := .threw "Channel already opened", queued := [],
          calls := [] } ∧
    (SSHChannel.applyEffects address (first.OpenSession firstHandle firstDeferred).self
        effects).OpenSession ssh_channel_new deferred
      = { self := SSHChannel.applyEffects address
            (first.OpenSession firstHandle firstDeferred).self effects,
          completion := .threw "Channel already opened", queued := [], calls := [] } := by
  have key : ∀ s : SSHChannel, s.channel_ ≠ none →
      s.OpenSession ssh_channel_new deferred
        = { self := s, completion := .threw "Channel already opened", queued := [],
            calls := [] } := by
    intro s hs
    simp [SSHChannel.OpenSession, hs]
  refine ⟨key self hslot, key _ ?_⟩
  rw [SSHChannel.applyEffects_channel]
  revert hfirst
  simp only [SSHChannel.OpenSession]
  split_ifs with h1 h2
  · simp
  · simp
  · intro _
    exact h2

/-- Witness for C6: a second `openSession()` on a fresh Channel whose first
`openSession()` got handle 5, after the first task has failed. -/
theorem openSession_twice_throws_witness :
    ((SSHChannel.applyEffects 200
        ((SSHChannel.NewInstance (some 1) (.object 10)).OpenSession (some 5) 1).self
        [.reject 1 "Failed to open channel session"]).OpenSession (some 6) 2).completion
      = .threw "Channel already opened" :=
  congrArg (fun r => r.completion)
    (openSession_twice_throws
      ((SSHChannel.NewInstance (some 1) (.object 10)).OpenSession (some 5) 1).self (some 6) 2
      (SSHChannel.NewInstance (some 1) (.object 10)) (some 5) 1 200
      [.reject 1 "Failed to open channel session"]
      (by decide)
      (by simp [SSHChannel.OpenSession, SSHChannel.NewInstance, SSHChannel.new])).2

/-- The first `r` elements of a vector of `n >= r` bytes are the `r` bytes found at
its `data()` pointer. -/
theorem BufferCopy_eq_take (v : CharVector) (r : Nat) (hr : r ≤ v.size) :
    BufferCopy v.data r = v.toList.take r := by
  simp [BufferCopy, CharVector.toList, ← List.map_take, List.take_range, Nat.min_eq_left hr]

/-- C7: for every `maxBytes = n >= 0` and every return value `r` of the read call:
the task makes exactly one `ssh_channel_read` call, on a scratch buffer of `n`
bytes; if `r >= 0` the promise is resolved with the `r` bytes found at the
buffer's `data()` pointer, a payload of length `r`, which is the first `r`
elements of the buffer and no longer than `n` when `r <= n`; if `r < 0` the
promise is rejected with "Failed to read from channel". On an open Channel
`read(n)` queues exactly this one task. -/
theorem read_task_payload (channel : Ptr) (n : Int) (deferred : Nat) (reply : Reply)
    (instanceData : Option Nat) (hn : 0 ≤ n) :
    (ChannelReadWorker.new channel n deferred).buffer_.toList.length = n.toNat ∧
    ((Worker.channelRead (ChannelReadWorker.new channel n deferred)).Execute reply).2
      = [.ssh_channel_read channel n 0] ∧
    (0 ≤ reply.status →
      (Worker.channelRead (ChannelReadWorker.new channel n deferred)).complete reply none
          instanceData
        = [.resolve deferred (.buffer (BufferCopy reply.memory reply.status.toNat))] ∧
      (BufferCopy reply.memory reply.status.toNat).length = reply.status.toNat ∧
      (reply.status ≤ n →
        BufferCopy reply.memory reply.status.toNat
          = ((ChannelReadWorker.new channel n deferred).Execute reply).1.buffer_.toList.take
              reply.status.toNat ∧
        (BufferCopy reply.memory reply.status.toNat).length ≤ n.toNat)) ∧
    (reply.status < 0 →
      (Worker.channelRead (ChannelReadWorker.new channel n deferred)).complete reply none
          instanceData
        = [.reject deferred "Failed to read from channel"]) ∧
    (∀ self : SSHChannel, self.open_ = true → self.channel_ = channel →
      self.Read [.number n] deferred
        = { self := self, completion := .returned (.promise deferred),
            queued := [.channelRead (ChannelReadWorker.new channel n deferred)],
            calls := [] }) := by
  refine ⟨?_, ?_, ?_, ?_, ?_⟩
  · simp [ChannelReadWorker.new, CharVector.toList]
  · simp only [Worker.Execute, ChannelReadWorker.Execute, ChannelReadWorker.new]
    split_ifs <;> rfl
  · intro hr
    have hnot : ¬ reply.status < 0 := not_lt.mpr hr
    refine ⟨?_, by simp [BufferCopy], ?_⟩
    · simp [Worker.complete, Worker.Execute, Worker.OnOK, ChannelReadWorker.Execute,
        ChannelReadWorker.OnOK, ChannelReadWorker.new, hnot, hr]
    · intro hle
      have hsize : (((ChannelReadWorker.new channel n deferred).Execute reply).1.buffer_).size
          = n.toNat := by
        simp [ChannelReadWorker.Execute, ChannelReadWorker.new, hnot]
      have hdata : (((ChannelReadWorker.new channel n deferred).Execute reply).1.buffer_).data
          = reply.memory := by
        simp [ChannelReadWorker.Execute, ChannelReadWorker.new, hnot]
      have hle2 : reply.status.toNat ≤ n.toNat := Int.toNat_le_toNat hle
      constructor
      · rw [← hdata]
        exact BufferCopy_eq_take _ _ (by rw [hsize]; exact hle2)
      · simpa [BufferCopy] using hle2
  · intro hr
    have hnot : ¬ reply.status ≥ 0 := not_le.mpr hr
    simp [Worker.complete, Worker.Execute, Worker.OnOK, ChannelReadWorker.Execute,
      ChannelReadWorker.OnOK, ChannelReadWorker.new, hr]
  · intro self hopen hch
    have hnot : ¬ n < 0 := not_lt.mpr hn
    simp [SSHChannel.Read, hopen, hch, arg, JsValue.IsNumber, JsValue.Int32Value, hnot]

/-- Witness for C7: `read(4)` where the library stores "hi\n" and returns 3. -/
theorem read_task_payload_witness :
    (0 : Int) ≤ 4 ∧
    (Worker.channelRead (ChannelReadWorker.new (some 5) 4 9)).complete
        { status := 3, lastError := none, memory := fun i => [104, 105, 10].getD i 0 } none
        (some 100)
      = [.resolve 9 (.buffer [104, 105, 10])] :=
  ⟨by decide,
   ((read_task_payload (some 5) 4 9
      { status := 3, lastError := none, memory := fun i => [104, 105, 10].getD i 0 }
      (some 100) (by decide)).2.2.1 (by decide)).1⟩

/-- C8: for every byte sequence `b` and every return value `w` of the write call:
the task makes exactly one `ssh_channel_write` call, with the bytes of `b` and
length `len(b)`; if `w >= 0` the promise is resolved with the number `w`, and
otherwise it is rejected; so the promise is resolved exactly when `w >= 0`, a
resolved count is never negative, and it is at most `len(b)` when `w` is. On
an open Channel `write(b)` queues exactly this one task. -/
theorem write_task_count (channel : Ptr) (b : List Byte) (deferred : Nat) (reply : Reply)
    (instanceData : Option Nat) :
    ((Worker.channelWrite (ChannelWriteWorker.new channel b deferred)).Execute reply).2
      = [.ssh_channel_write channel b b.length] ∧
    (0 ≤ reply.status →
      (Worker.channelWrite (ChannelWriteWorker.new channel b deferred)).complete reply none
          instanceData
        = [.resolve deferred (.number reply.status)]) ∧
    (reply.status < 0 →
      (Worker.channelWrite (ChannelWriteWorker.new channel b deferred)).complete reply none
          instanceData
        = [.reject deferred "Failed to write to channel"]) ∧
    (resolveCount ((Worker.channelWrite (ChannelWriteWorker.new channel b deferred)).complete
        reply none instanceData) = 1 ↔ 0 ≤ reply.status) ∧
    (∀ count : Int,
      (Worker.channelWrite (ChannelWriteWorker.new channel b deferred)).complete reply none
          instanceData
        = [.resolve deferred (.number count)] →
      0 ≤ count ∧ count = reply.status ∧ (reply.status ≤ b.length → count ≤ b.length)) ∧
    (∀ self : SSHChannel, self.open_ = true → self.channel_ = channel →
      self.Write [.buffer b] deferred
        = { self := self, completion := .returned (.promise deferred),
            queued := [.channelWrite (ChannelWriteWorker.new channel b deferred)],
            calls := [] }) := by
  have hcalls : ((Worker.channelWrite (ChannelWriteWorker.new channel b deferred)).Execute
      reply).2 = [.ssh_channel_write channel b b.length] := by
    simp only [Worker.Execute, ChannelWriteWorker.Execute, ChannelWriteWorker.new]
    split_ifs <;> rfl
  have hpos : 0 ≤ reply.status →
      (Worker.channelWrite (ChannelWriteWorker.new channel b deferred)).complete reply none
          instanceData
        = [.resolve deferred (.number reply.status)] := by
    intro hr
    have hnot : ¬ reply.status < 0 := not_lt.mpr hr
    simp [Worker.complete, Worker.Execute, Worker.OnOK, ChannelWriteWorker.Execute,
      ChannelWriteWorker.OnOK, ChannelWriteWorker.new, hnot, hr]
  have hneg : reply.status < 0 →
      (Worker.channelWrite (ChannelWriteWorker.new channel b deferred)).complete reply none
          instanceData
        = [.reject deferred "Failed to write to channel"] := by
    intro hr
    simp [Worker.complete, Worker.Execute, Worker.OnOK, ChannelWriteWorker.Execute,
      ChannelWriteWorker.OnOK, ChannelWriteWorker.new, hr]
  refine ⟨hcalls, hpos, hneg, ?_, ?_, ?_⟩
  · constructor
    · intro h
      by_contra hr
      rw [hneg (not_le.mp hr)] at h
      simp [resolveCount] at h
    · intro hr
      rw [hpos hr]
      simp [resolveCount]
  · intro count h
    rcases lt_or_le reply.status 0 with hr | hr
    · rw [hneg hr] at h
      simp at h
    · rw [hpos hr] at h
      have hc : reply.status = count := by simpa using h
      subst hc
      exact ⟨hr, rfl, fun hle => hle⟩
  · intro self hopen hch
    simp [SSHChannel.Write, hopen, hch, arg, JsValue.IsBuffer]

/-- Witness for C8: a short write, the library taking 2 of the 3 bytes "hi\n". -/
theorem write_task_count_witness :
    (Worker.channelWrite (ChannelWriteWorker.new (some 5) [104, 105, 10] 9)).complete
        { status := 2, lastError := none, memory := fun _ => 0 } none (some 100)
      = [.resolve 9 (.number 2)] :=
  (write_task_count (some 5) [104, 105, 10] 9
    { status := 2, lastError := none, memory := fun _ => 0 } (some 100)).2.1 (by decide)

/-- C9 (as stated, refuted): it is not so that `close()` on a Channel whose `open_`
is unset returns a future. On a Channel fresh from its constructor `close()`
returns the plain value `undefined`. -/
theorem close_not_open_returns_future_counterexample :
    ¬ (∀ (self : SSHChannel) (deferred : Nat), self.open_ = false →
        ∃ p : Nat, (self.Close deferred).completion = .returned (.promise p)) := by
  intro h
  obtain ⟨p, hp⟩ := h SSHChannel.new 1 rfl
  revert hp
  simp [SSHChannel.Close, SSHChannel.new]

/-- C9 (amended): on every Channel whose `open_` is unset, `close()` returns the plain
value `undefined` without throwing, queues no task, makes no library call and
leaves every member as it was; and after any first `close()` a second one is
such a no-op. -/
theorem close_not_open_is_noop (self : SSHChannel) (deferred second : Nat)
    (hclosed : self.open_ = false) :
    self.Close deferred
      = { self := self, completion := .returned .undefined, queued := [], calls := [] } ∧
    (∀ any : SSHChannel,
      (any.Close deferred).self.Close second
        = { self := (any.Close deferred).self, completion := .returned .undefined,
            queued := [], calls := [] }) := by
  have key : ∀ s : SSHChannel, s.open_ = false →
      s.Close second
        = { self := s, completion := .returned .undefined, queued := [], calls := [] } := by
    intro s hs
    simp [SSHChannel.Close, hs]
  constructor
  · simp [SSHChannel.Close, hclosed]
  · intro any
    apply key
    cases hopen : any.open_ <;> simp [SSHChannel.Close, hopen]

/-- Witness for C9 (amended): `close()` on a Channel fresh from `createChannel()`. -/
theorem close_not_open_is_noop_witness :
    (SSHChannel.NewInstance (some 1) (.object 10)).open_ = false ∧
    (SSHChannel.NewInstance (some 1) (.object 10)).Close 3
      = { self := SSHChannel.NewInstance (some 1) (.object 10),
          completion := .returned .undefined, queued := [], calls := [] } :=
  ⟨rfl, (close_not_open_is_noop (SSHChannel.NewInstance (some 1) (.object 10)) 3 4 rfl).1⟩

/-- C10: both overloads of `CreateSSHError` produce the text of the reference
definition: `m ++ ": " ++ e` when the session is non-null and the library
returns the error string `e`, and exactly `m` otherwise; without a message,
`e` when it is available and "SSH Error" otherwise. -/
theorem CreateSSHError_eq_reference (session : Ptr) (lastError : Option String)
    (m e : String) (handle : Nat) :
    CreateSSHErrorWithMessage session lastError m
      = errorTextReference session lastError (some m) ∧
    CreateSSHError session lastError = errorTextReference session lastError none ∧
    CreateSSHErrorWithMessage (some handle) (some e) m = m ++ ": " ++ e ∧
    CreateSSHErrorWithMessage none lastError m = m ∧
    CreateSSHErrorWithMessage session none m = m ∧
    CreateSSHError (some handle) (some e) = e ∧
    CreateSSHError none lastError = "SSH Error" ∧
    CreateSSHError session none = "SSH Error" := by
  refine ⟨?_, ?_, ?_, ?_, ?_, ?_, ?_, ?_⟩
  · cases session <;> cases lastError <;>
      simp [CreateSSHErrorWithMessage, errorTextReference]
  · cases session <;> cases lastError <;> simp [CreateSSHError, errorTextReference]
  · simp [CreateSSHErrorWithMessage]
  · simp [CreateSSHErrorWithMessage]
  · cases session <;> simp [CreateSSHErrorWithMessage]
  · simp [CreateSSHError]
  · simp [CreateSSHError]
  · cases session <;> simp [CreateSSHError]

/-- What the password task does with a library answer that is not auth-success: it
rejects with the library's error string, or with "Authentication failed" when
the library has none. -/
theorem AuthPasswordWorker.complete_of_failure (session : Ptr) (username password : String)
    (deferred : Nat) (reply : Reply) (instanceData : Option Nat)
    (hr : reply.status ≠ SSH_AUTH_SUCCESS) :
    (Worker.authPassword (AuthPasswordWorker.new session username password deferred)).complete
        reply none instanceData
      = [.reject deferred (reply.lastError.getD "Authentication failed")] := by
  cases hle : reply.lastError <;>
    simp [Worker.complete, Worker.Execute, Worker.OnOK, AuthPasswordWorker.Execute,
      AuthPasswordWorker.OnOK, AuthPasswordWorker.new, hr, hle]

/-- What the password task does with the auth-success answer: it resolves. -/
theorem AuthPasswordWorker.complete_of_success (session : Ptr) (username password : String)
    (deferred : Nat) (reply : Reply) (instanceData : Option Nat)
    (hr : reply.status = SSH_AUTH_SUCCESS) :
    (Worker.authPassword (AuthPasswordWorker.new session username password deferred)).complete
        reply none instanceData
      = [.resolve deferred .undefined] := by
  simp [Worker.complete, Worker.Execute, Worker.OnOK, AuthPasswordWorker.Execute,
    AuthPasswordWorker.OnOK, AuthPasswordWorker.new, hr]

/-- A text without a NUL character is its own C string. -/
theorem c_str_of_no_NUL (s : String) (h : NUL ∉ s.data) : c_str s = s := by
  unfold c_str
  have htake : s.data.takeWhile (fun c => c != NUL) = s.data := by
    rw [List.takeWhile_eq_self_iff]
    intro x hx
    simp only [bne_iff_ne, ne_eq]
    intro hxe
    exact h (hxe ▸ hx)
  rw [htake]

/-- The C string of a text holds no NUL character and is the part of the text before
its first NUL character. -/
theorem c_str_spec (s : String) :
    NUL ∉ (c_str s).data ∧
    ∃ rest : List Char, s.data = (c_str s).data ++ rest ∧
      (rest = [] ∨ rest.head? = some NUL) := by
  unfold c_str
  refine ⟨?_, s.data.dropWhile (fun c => c != NUL), ?_, ?_⟩
  · intro h
    have := List.mem_takeWhile_imp h
    simp at this
  · simp [List.takeWhile_append_dropWhile]
  · cases hd : s.data.dropWhile (fun c => c != NUL) with
    | nil => left; rfl
    | cons a t =>
      right
      have := List.head_dropWhile_not (fun c => c != NUL) s.data
      simp [hd] at this
      simp [this]

/-- C11 (as stated, refuted): it is not so that the library is handed the given
username (when non-empty) and the password unchanged. For the password
"se", NUL, "cret" the library is handed "se"; for the non-empty username NUL,
"bob" it is handed the empty text, not a null pointer. -/
theorem password_auth_arguments_counterexample :
    ¬ (∀ (username password : String) (reply : Reply),
        ((Worker.authPassword (AuthPasswordWorker.new (some 1) username password 4)).Execute
            reply).2.head?
          = some (.ssh_userauth_password (some 1)
              (if username = "" then none else some username) password)) ∧
    ((Worker.authPassword (AuthPasswordWorker.new (some 1) "alice" "se\x00cret" 4)).Execute
        okReply).2
      = [.ssh_userauth_password (some 1) (some "alice") "se"] ∧
    ((Worker.authPassword (AuthPasswordWorker.new (some 1) "\x00bob" "secret" 4)).Execute
        okReply).2
      = [.ssh_userauth_password (some 1) (some "") "secret"] := by
  refine ⟨?_, by decide, by decide⟩
  intro h
  have h1 := h "alice" "se\x00cret" okReply
  revert h1
  decide

/-- C11 (amended): for every username, password and status `r` of the blocking call:
the task's first library call is `ssh_userauth_password` with a null username
exactly when the given username is empty, and otherwise with the C string of
the given username, and with the C string of the password; a username and a
password without a NUL character are handed over unchanged; the promise is
resolved exactly when `r` is `SSH_AUTH_SUCCESS`, and rejected (once, never
resolved) for every other `r`, among them partial, denied, again and error;
`authenticatePassword(u, p)` queues exactly this task. -/
theorem password_auth_resolves_iff_success (session : Ptr) (username password : String)
    (deferred : Nat) (reply : Reply) (instanceData : Option Nat) :
    ((Worker.authPassword (AuthPasswordWorker.new session username password deferred)).Execute
        reply).2.head?
      = some (.ssh_userauth_password session
          (if username = "" then none else some (c_str username)) (c_str password)) ∧
    (NUL ∉ username.data → NUL ∉ password.data →
      ((Worker.authPassword (AuthPasswordWorker.new session username password deferred)).Execute
          reply).2.head?
        = some (.ssh_userauth_password session (if username = "" then none else some username)
            password)) ∧
    (((Worker.authPassword (AuthPasswordWorker.new session username password deferred)).Execute
        reply).2.tail
      = if reply.status ≠ SSH_AUTH_SUCCESS then [.ssh_get_error session] else []) ∧
    ((Worker.authPassword (AuthPasswordWorker.new session username password deferred)).complete
        reply none instanceData = [.resolve deferred .undefined]
      ↔ reply.status = SSH_AUTH_SUCCESS) ∧
    (reply.status ≠ SSH_AUTH_SUCCESS →
      resolveCount ((Worker.authPassword
        (AuthPasswordWorker.new session username password deferred)).complete
          reply none instanceData) = 0 ∧
      rejectCount ((Worker.authPassword
        (AuthPasswordWorker.new session username password deferred)).complete
          reply none instanceData) = 1) ∧
    (reply.status ∈ [SSH_AUTH_PARTIAL, SSH_AUTH_DENIED, SSH_AUTH_AGAIN, SSH_AUTH_ERROR] →
      rejectCount ((Worker.authPassword
        (AuthPasswordWorker.new session username password deferred)).complete
          reply none instanceData) = 1) ∧
    (∀ self : SSHSession, self.session_ = session →
      self.AuthenticatePassword [.string username, .string password] deferred
        = { self := self, completion := .returned (.promise deferred),
            queued := [.authPassword
              (AuthPasswordWorker.new session username password deferred)],
            calls := [] }) := by
  have hfail : reply.status ≠ SSH_AUTH_SUCCESS →
      resolveCount ((Worker.authPassword
        (AuthPasswordWorker.new session username password deferred)).complete
          reply none instanceData) = 0 ∧
      rejectCount ((Worker.authPassword
        (AuthPasswordWorker.new session username password deferred)).complete
          reply none instanceData) = 1 := by
    intro hr
    rw [AuthPasswordWorker.complete_of_failure _ _ _ _ _ _ hr]
    simp [resolveCount, rejectCount]
  have hname : (if username.isEmpty = true then none else some (c_str username))
      = (if username = "" then none else some (c_str username)) := by
    by_cases hu : username = ""
    · have : username.isEmpty = true := (String.isEmpty_iff username).mpr hu
      rw [if_pos this, if_pos hu]
    · have : ¬ username.isEmpty = true := fun h => hu ((String.isEmpty_iff username).mp h)
      simp [hu, this]
  have hhead : ((Worker.authPassword
      (AuthPasswordWorker.new session username password deferred)).Execute reply).2.head?
      = some (.ssh_userauth_password session
          (if username = "" then none else some (c_str username)) (c_str password)) := by
    simp only [Worker.Execute, AuthPasswordWorker.Execute, AuthPasswordWorker.new, ← hname]
    split_ifs <;> rfl
  refine ⟨hhead, ?_, ?_, ?_, hfail, ?_, ?_⟩
  · intro hu hp
    rw [hhead, c_str_of_no_NUL username hu, c_str_of_no_NUL password hp]
  · simp only [Worker.Execute, AuthPasswordWorker.Execute, AuthPasswordWorker.new]
    split_ifs <;> rfl
  · constructor
    · intro h
      by_contra hr
      rw [AuthPasswordWorker.complete_of_failure _ _ _ _ _ _ hr] at h
      simp at h
    · exact AuthPasswordWorker.complete_of_success _ _ _ _ _ _
  · intro hmem
    apply (hfail ?_).2
    intro hs
    rw [hs] at hmem
    revert hmem
    decide
  · intro self hself
    simp [SSHSession.AuthenticatePassword, arg, JsValue.Utf8Value, hself]

/-- Witness for C11 (amended): `authenticatePassword("alice", "secret")`, two texts
without a NUL character, hands "alice" and "secret" to the library. -/
theorem password_auth_resolves_iff_success_witness :
    ((Worker.authPassword (AuthPasswordWorker.new (some 1) "alice" "secret" 4)).Execute
        { status := SSH_AUTH_DENIED, lastError := none, memory := fun _ => 0 }).2.head?
      = some (.ssh_userauth_password (some 1)
          (if "alice" = "" then none else some "alice") "secret") :=
  (password_auth_resolves_iff_success (some 1) "alice" "secret" 4
    { status := SSH_AUTH_DENIED, lastError := none, memory := fun _ => 0 } (some 100)).2.1
    (by decide) (by decide)

/-- C12 (as stated, refuted): it is not so that every failed password
authentication rejects with a message containing "Authentication failed". With
status `SSH_AUTH_DENIED` and the library's error string "Access denied" the
message is "Access denied". -/
theorem password_auth_failure_message_counterexample :
    ¬ (∀ (reply : Reply), reply.status ≠ SSH_AUTH_SUCCESS →
        ∃ message : String,
          (Worker.authPassword (AuthPasswordWorker.new (some 1) "alice" "wrong" 4)).complete
            reply none (some 100) = [.reject 4 message] ∧
          Contains message "Authentication failed") := by
  intro h
  obtain ⟨message, hm, before, after, hc⟩ :=
    h { status := SSH_AUTH_DENIED, lastError := some "Access denied", memory := fun _ => 0 }
      (by decide)
  rw [AuthPasswordWorker.complete_of_failure _ _ _ _ _ _ (by decide)] at hm
  have hmsg : message = "Access denied" := by
    simpa using hm.symm
  rw [hmsg] at hc
  have hlen := congrArg String.length hc
  simp only [String.length_append] at hlen
  have h1 : "Access denied".length = 13 := by decide
  have h2 : "Authentication failed".length = 21 := by decide
  omega

/-- C12 (amended): every password authentication the library does not report as
auth-success rejects with the library's error string when it supplies one, and
with "Authentication failed" when it supplies none; so the message contains
"Authentication failed" exactly when the library supplies no string or a
string that contains it. -/
theorem password_auth_failure_message (session : Ptr) (username password : String)
    (deferred : Nat) (reply : Reply) (instanceData : Option Nat)
    (hr : reply.status ≠ SSH_AUTH_SUCCESS) :
    (∀ e : String, reply.lastError = some e →
      (Worker.authPassword (AuthPasswordWorker.new session username password deferred)).complete
          reply none instanceData = [.reject deferred e]) ∧
    (reply.lastError = none →
      (Worker.authPassword (AuthPasswordWorker.new session username password deferred)).complete
          reply none instanceData = [.reject deferred "Authentication failed"]) ∧
    (∀ message : String,
      (Worker.authPassword (AuthPasswordWorker.new session username password deferred)).complete
          reply none instanceData = [.reject deferred message] →
      (Contains message "Authentication failed" ↔
        reply.lastError = none ∨
          ∃ e, reply.lastError = some e ∧ Contains e "Authentication failed")) := by
  have hc := AuthPasswordWorker.complete_of_failure session username password deferred reply
    instanceData hr
  have hself : Contains "Authentication failed" "Authentication failed" :=
    ⟨"", "", by decide⟩
  refine ⟨?_, ?_, ?_⟩
  · intro e he
    rw [hc, he]
    rfl
  · intro he
    rw [hc, he]
    rfl
  · intro message hm
    rw [hc] at hm
    have hmsg : message = reply.lastError.getD "Authentication failed" := by
      simpa using hm.symm
    cases hle : reply.lastError with
    | none =>
      rw [hmsg, hle]
      simpa using hself
    | some e =>
      rw [hmsg, hle]
      simp

/-- Witness for C12 (amended): a denied attempt for which the library has no error
string rejects with "Authentication failed". -/
theorem password_auth_failure_message_witness :
    (Worker.authPassword (AuthPasswordWorker.new (some 1) "alice" "wrong" 4)).complete
        { status := SSH_AUTH_DENIED, lastError := none, memory := fun _ => 0 } none (some 100)
      = [.reject 4 "Authentication failed"] :=
  (password_auth_failure_message (some 1) "alice" "wrong" 4
    { status := SSH_AUTH_DENIED, lastError := none, memory := fun _ => 0 } (some 100)
    (by decide)).2.1 rfl

/-- C13 (as stated, refuted): it is not so that a failed channel task rejects with
the utility's text for its default message. With session handle 1, status
`SSH_ERROR` and the library's error string "Channel is closed", the utility's
text is "Failed to execute command: Channel is closed", while the exec task
rejects with "Failed to execute command". -/
theorem channel_task_rejection_text_counterexample :
    ¬ (∀ (session : Ptr) (reply : Reply), reply.status ≠ SSH_OK →
        (Worker.channelExec (ChannelExecWorker.new (some 5) "ls" 3)).complete reply none
            (some 100)
          = [.reject 3
              (CreateSSHErrorWithMessage session reply.lastError
                "Failed to execute command")]) := by
  intro h
  have h1 := h (some 1) (errorReply (some "Channel is closed")) (by decide)
  revert h1
  simp [Worker.complete, Worker.Execute, Worker.OnOK, ChannelExecWorker.Execute,
    ChannelExecWorker.OnOK, ChannelExecWorker.new, errorReply, SSH_OK, SSH_ERROR,
    CreateSSHErrorWithMessage]

/-- C13 (amended): a channel task whose blocking call reports a failure (a status
other than `SSH_OK` for open, forward and exec; a negative count for read and
write) rejects with its static default text alone, whatever error string the
library holds, and never asks the library for that string; this is the
utility's text only for the case that no error string is available. -/
theorem channel_task_rejection_text (channel : Ptr) (deferred : Nat) (reply : Reply)
    (instanceData : Option Nat) (session : Ptr) (command remoteHost sourceHost : String)
    (remotePort sourcePort maxBytes : Int) (data : List Byte) :
    (reply.status ≠ SSH_OK →
      (Worker.channelOpen (ChannelOpenWorker.new channel deferred)).complete reply none
          instanceData
        = [.reject deferred "Failed to open channel session"] ∧
      (Worker.channelForward (ChannelForwardWorker.new channel remoteHost remotePort sourceHost
          sourcePort deferred)).complete reply none instanceData
        = [.reject deferred "Failed to open forward channel"] ∧
      (Worker.channelExec (ChannelExecWorker.new channel command deferred)).complete reply none
          instanceData
        = [.reject deferred "Failed to execute command"]) ∧
    (reply.status < 0 →
      (Worker.channelRead (ChannelReadWorker.new channel maxBytes deferred)).complete reply none
          instanceData
        = [.reject deferred "Failed to read from channel"] ∧
      (Worker.channelWrite (ChannelWriteWorker.new channel data deferred)).complete reply none
          instanceData
        = [.reject deferred "Failed to write to channel"]) ∧
    (∀ w ∈ [Worker.channelOpen (ChannelOpenWorker.new channel deferred),
          Worker.channelForward (ChannelForwardWorker.new channel remoteHost remotePort
            sourceHost sourcePort deferred),
          Worker.channelExec (ChannelExecWorker.new channel command deferred),
          Worker.channelRead (ChannelReadWorker.new channel maxBytes deferred),
          Worker.channelWrite (ChannelWriteWorker.new channel data deferred)],
      ∀ c ∈ (w.Execute reply).2, ∀ s : Ptr, c ≠ .ssh_get_error s) ∧
    (∀ text : String, CreateSSHErrorWithMessage session none text = text) := by
  refine ⟨?_, ?_, ?_, ?_⟩
  · intro hr
    refine ⟨?_, ?_, ?_⟩ <;>
      simp [Worker.complete, Worker.Execute, Worker.OnOK, ChannelOpenWorker.Execute,
        ChannelOpenWorker.OnOK, ChannelOpenWorker.new, ChannelForwardWorker.Execute,
        ChannelForwardWorker.OnOK, ChannelForwardWorker.new, ChannelExecWorker.Execute,
        ChannelExecWorker.OnOK, ChannelExecWorker.new, hr]
  · intro hr
    have hnot : ¬ 0 ≤ reply.status := not_le.mpr hr
    refine ⟨?_, ?_⟩ <;>
      simp [Worker.complete, Worker.Execute, Worker.OnOK, ChannelReadWorker.Execute,
        ChannelReadWorker.OnOK, ChannelReadWorker.new, ChannelWriteWorker.Execute,
        ChannelWriteWorker.OnOK, ChannelWriteWorker.new, hr]
  · intro w hw c hc s
    simp only [List.mem_cons, List.mem_singleton, List.not_mem_nil, or_false] at hw
    rcases hw with rfl | rfl | rfl | rfl | rfl <;>
      (simp only [Worker.Execute, ChannelOpenWorker.Execute, ChannelForwardWorker.Execute,
        ChannelExecWorker.Execute, ChannelReadWorker.Execute, ChannelWriteWorker.Execute]
        at hc
       split_ifs at hc <;> simp at hc <;> simp [hc])
  · intro text
    cases session <;> simp [CreateSSHErrorWithMessage]

/-- Witness for C13 (amended): `requestExec("ls")` failing with the library's error
string "Channel is closed" rejects with "Failed to execute command". -/
theorem channel_task_rejection_text_witness :
    (Worker.channelExec (ChannelExecWorker.new (some 5) "ls" 3)).complete
        (errorReply (some "Channel is closed")) none (some 100)
      = [.reject 3 "Failed to execute command"] :=
  ((channel_task_rejection_text (some 5) 3 (errorReply (some "Channel is closed")) (some 100)
    (some 1) "ls" "db" "127.0.0.1" 5432 0 16 []).1 (by decide)).2.2

/-- C14 (as stated, refuted): it is not so that once an open task has been queued
every further `requestForwardTcpIp` call queues nothing. On a fresh Channel,
after `openSession()` has obtained handle 5 and queued its task,
`requestForwardTcpIp("db", 5432)` queues a forward task on handle 5. -/
theorem second_open_attempt_counterexample :
    ¬ (∀ (info : List JsValue) (ssh_channel_new : Ptr) (deferred : Nat),
        (((SSHChannel.NewInstance (some 1) (.object 10)).OpenSession (some 5) 1).self
          |>.RequestForwardTcpIp info ssh_channel_new deferred).queued = []) := by
  intro h
  have h1 := h [.string "db", .number 5432] (some 6) 2
  revert h1
  simp [SSHChannel.RequestForwardTcpIp, SSHChannel.OpenSession, SSHChannel.NewInstance,
    SSHChannel.new, arg, JsValue.Utf8Value, JsValue.Int32Value]

/-- C14 (amended): a call that queued an open task left the handle slot non-empty;
on a Channel whose handle slot is non-empty every further `openSession()` is
refused with "Channel already opened" and queues nothing, whereas
`requestForwardTcpIp` with a host and a port is not refused: it asks for no new
handle, leaves the Channel as it is and queues one more forward task on the
existing handle. -/
theorem open_attempts_on_existing_handle (self : SSHChannel) (ssh_channel_new : Ptr)
    (deferred : Nat) (info : List JsValue) (remoteHost : String) (remotePort : Int)
    (hslot : self.channel_ ≠ none)
    (hlen : 2 ≤ info.length)
    (hhost : (arg info 0).Utf8Value = some remoteHost)
    (hport : (arg info 1).Int32Value = some remotePort) :
    (∀ (any : SSHChannel) (c : ChannelCall),
      (∃ w ∈ (any.call c).queued, w.isOpenAttempt = true) →
        (any.call c).self.channel_ ≠ none) ∧
    self.OpenSession ssh_channel_new deferred
      = { self := self, completion := .threw "Channel already opened", queued := [],
          calls := [] } ∧
    (∃ (sourceHost : String) (sourcePort : Int),
      self.RequestForwardTcpIp info ssh_channel_new deferred
        = { self := self, completion := .returned (.promise deferred),
            queued := [.channelForward (ChannelForwardWorker.new self.channel_ remoteHost
              remotePort sourceHost sourcePort deferred)],
            calls := [] }) := by
  refine ⟨?_, ?_, ?_⟩
  · intro any c hq
    obtain ⟨w, hw, hopen⟩ := hq
    cases c with
    | openSession h d =>
      simp only [SSHChannel.call, SSHChannel.OpenSession] at hw ⊢
      split_ifs at hw ⊢ with h1 h2
      · simp at hw
      · simp at hw
      · exact h2
    | requestForwardTcpIp i h d =>
      simp only [SSHChannel.call, SSHChannel.RequestForwardTcpIp] at hw ⊢
      by_cases hl : i.length < 2
      · simp [hl] at hw
      · cases hu : (arg i 0).Utf8Value with
        | none => simp [hl, hu] at hw
        | some rh =>
          cases hp : (arg i 1).Int32Value with
          | none => simp [hl, hu, hp] at hw
          | some rp =>
            simp only [hl, hu, hp, if_false] at hw ⊢
            by_cases hc : any.channel_ = none
            · by_cases hh : h = none
              · simp [hc, hh] at hw
              · simp [hc, hh]
            · simp [hc]
    | requestExec i d =>
      exfalso
      simp only [SSHChannel.call, SSHChannel.RequestExec] at hw
      split_ifs at hw <;> (try split at hw) <;> simp at hw
      subst hw
      simp [Worker.isOpenAttempt] at hopen
    | read i d =>
      exfalso
      simp only [SSHChannel.call, SSHChannel.Read] at hw
      split_ifs at hw <;> simp at hw <;>
        (subst hw; simp [Worker.isOpenAttempt] at hopen)
    | write i d =>
      exfalso
      simp only [SSHChannel.call, SSHChannel.Write] at hw
      split_ifs at hw <;> (try split at hw) <;> simp at hw
      subst hw
      simp [Worker.isOpenAttempt] at hopen
    | close d =>
      exfalso
      simp only [SSHChannel.call, SSHChannel.Close] at hw
      split_ifs at hw <;> simp at hw
      subst hw
      simp [Worker.isOpenAttempt] at hopen
    | isOpen b =>
      exfalso
      simp only [SSHChannel.call, SSHChannel.IsOpen] at hw
      split_ifs at hw <;> simp at hw
  · simp [SSHChannel.OpenSession, hslot]
  · have hnot : ¬ info.length < 2 := not_lt.mpr hlen
    simp only [SSHChannel.RequestForwardTcpIp, hnot, if_false, hhost, hport, hslot]
    exact ⟨_, _, rfl⟩

/-- Witness for C14 (amended): after a first `openSession()` both a second
`openSession()` is refused and `requestForwardTcpIp("db", 5432)` queues a task
on the same handle 5. -/
theorem open_attempts_on_existing_handle_witness :
    ∃ (sourceHost : String) (sourcePort : Int),
      (((SSHChannel.NewInstance (some 1) (.object 10)).OpenSession (some 5) 1).self
        |>.RequestForwardTcpIp [.string "db", .number 5432] (some 6) 2)
        = { self := ((SSHChannel.NewInstance (some 1) (.object 10)).OpenSession (some 5) 1).self,
            completion := .returned (.promise 2),
            queued := [.channelForward (ChannelForwardWorker.new
              ((SSHChannel.NewInstance (some 1) (.object 10)).OpenSession (some 5) 1).self.channel_
              "db" 5432 sourceHost sourcePort 2)],
            calls := [] } :=
  (open_attempts_on_existing_handle
    ((SSHChannel.NewInstance (some 1) (.object 10)).OpenSession (some 5) 1).self (some 6) 2
    [.string "db", .number 5432] "db" 5432 (by decide) (by decide) rfl rfl).2.2

/-- Completion effects touch no member of a Channel other than `open_`. -/
theorem SSHChannel.applyEffects_frame (address : Nat) (effects : List Effect) :
    ∀ self : SSHChannel,
      (SSHChannel.applyEffects address self effects).session_ = self.session_ ∧
      (SSHChannel.applyEffects address self effects).sessionRef_ = self.sessionRef_ := by
  induction effects with
  | nil => intro self; exact ⟨rfl, rfl⟩
  | cons e rest ih =>
    intro self
    have hstep : (SSHChannel.applyEffect address self e).session_ = self.session_ ∧
        (SSHChannel.applyEffect address self e).sessionRef_ = self.sessionRef_ := by
      cases e with
      | resolve _ _ => exact ⟨rfl, rfl⟩
      | reject _ _ => exact ⟨rfl, rfl⟩
      | storeOpen t =>
        simp only [SSHChannel.applyEffect]
        split_ifs <;> exact ⟨rfl, rfl⟩
    have := ih (SSHChannel.applyEffect address self e)
    simp only [SSHChannel.applyEffects, List.foldl_cons] at this ⊢
    exact ⟨this.1.trans hstep.1, this.2.trans hstep.2⟩

/-- No method of a Channel touches `session_` or `sessionRef_`. -/
theorem SSHChannel.call_frame (self : SSHChannel) (c : ChannelCall) :
    (self.call c).self.session_ = self.session_ ∧
    (self.call c).self.sessionRef_ = self.sessionRef_ := by
  cases c with
  | openSession h d =>
    simp only [SSHChannel.call, SSHChannel.OpenSession]
    split_ifs <;> exact ⟨rfl, rfl⟩
  | requestExec i d =>
    simp only [SSHChannel.call, SSHChannel.RequestExec]
    split_ifs <;> (try split) <;> exact ⟨rfl, rfl⟩
  | requestForwardTcpIp i h d =>
    simp only [SSHChannel.call, SSHChannel.RequestForwardTcpIp]
    split_ifs <;> (try split) <;> exact ⟨rfl, rfl⟩
  | read i d =>
    simp only [SSHChannel.call, SSHChannel.Read]
    split_ifs <;> exact ⟨rfl, rfl⟩
  | write i d =>
    simp only [SSHChannel.call, SSHChannel.Write]
    split_ifs <;> (try split) <;> exact ⟨rfl, rfl⟩
  | close d =>
    simp only [SSHChannel.call, SSHChannel.Close]
    split_ifs <;> exact ⟨rfl, rfl⟩
  | isOpen b =>
    simp only [SSHChannel.call, SSHChannel.IsOpen]
    split_ifs <;> exact ⟨rfl, rfl⟩

/-- No event in the life of a Channel touches `session_` or `sessionRef_`. -/
theorem SSHChannel.after_frame (address : Nat) (instanceData : Option Nat)
    (events : List ChannelEvent) :
    ∀ self : SSHChannel,
      (self.after address instanceData events).session_ = self.session_ ∧
      (self.after address instanceData events).sessionRef_ = self.sessionRef_ := by
  induction events with
  | nil => intro self; exact ⟨rfl, rfl⟩
  | cons e rest ih =>
    intro self
    have hstep : (SSHChannel.step address instanceData self e).session_ = self.session_ ∧
        (SSHChannel.step address instanceData self e).sessionRef_ = self.sessionRef_ := by
      cases e with
      | call c => exact SSHChannel.call_frame self c
      | taskCompleted w reply fault => exact SSHChannel.applyEffects_frame address _ self
    have := ih (SSHChannel.step address instanceData self e)
    simp only [SSHChannel.after, List.foldl_cons] at this ⊢
    exact ⟨this.1.trans hstep.1, this.2.trans hstep.2⟩

/-- C15: the Channel `createChannel()` constructs stores the Session's connection
handle and a reference of count 1 to the Session's host object; no method call
on the Channel and no task completion changes either, so as long as the
Channel has not been destroyed the host may not collect the Session object,
and the Session's destructor has not run; the Channel's destructor is what
releases the reference. -/
theorem channel_keeps_session_alive (session : SSHSession) (constructorRef : Nat)
    (selfValue : JsValue) (newObject address : Nat) (events : List ChannelEvent)
    (hconnected : session.connected_ = true) :
    (session.CreateChannel (some constructorRef) selfValue newObject).constructed
      = [SSHChannel.NewInstance session.session_ selfValue] ∧
    (SSHChannel.NewInstance session.session_ selfValue).session_ = session.session_ ∧
    (SSHChannel.NewInstance session.session_ selfValue).sessionRef_
      = some { value := selfValue, refcount := 1 } ∧
    ((SSHChannel.NewInstance session.session_ selfValue).after address (some constructorRef)
      events).session_ = session.session_ ∧
    ((SSHChannel.NewInstance session.session_ selfValue).after address (some constructorRef)
      events).sessionRef_ = some { value := selfValue, refcount := 1 } ∧
    mayFinalize selfValue
      ((SSHChannel.NewInstance session.session_ selfValue).after address (some constructorRef)
        events).references = false ∧
    ((SSHChannel.NewInstance session.session_ selfValue).after address (some constructorRef)
      events).destroy.1.sessionRef_ = none := by
  have hframe := SSHChannel.after_frame address (some constructorRef) events
    (SSHChannel.NewInstance session.session_ selfValue)
  have href : ((SSHChannel.NewInstance session.session_ selfValue).after address
      (some constructorRef) events).sessionRef_ = some { value := selfValue, refcount := 1 } :=
    hframe.2
  refine ⟨?_, rfl, rfl, hframe.1, href, ?_, ?_⟩
  · simp [SSHSession.CreateChannel, hconnected]
  · simp [SSHChannel.references, href, mayFinalize]
  · simp only [SSHChannel.destroy]
    split_ifs <;> rfl

/-- Witness for C15: a Channel of a connected Session after `openSession()`, the
completion of the open task and `close()`. -/
theorem channel_keeps_session_alive_witness :
    ((SSHChannel.NewInstance (some 1) (.object 10)).after 200 (some 100)
      [.call (.openSession (some 5) 1),
       .taskCompleted (.channelOpen (ChannelOpenWorker.new (some 5) 1)) okReply none,
       .call (.close 2)]).sessionRef_ = some { value := .object 10, refcount := 1 } :=
  (channel_keeps_session_alive { session_ := some 1, connected_ := true } 100 (.object 10) 11 200
    [.call (.openSession (some 5) 1),
     .taskCompleted (.channelOpen (ChannelOpenWorker.new (some 5) 1)) okReply none,
     .call (.close 2)] rfl).2.2.2.2.1

/-- A completion callback stores only through the environment's instance data. -/
theorem Worker.complete_store_target (w : Worker) (reply : Reply) (fault : Option String)
    (instanceData : Option Nat) (target : Nat)
    (hmem : Effect.storeOpen target ∈ w.complete reply fault instanceData) :
    instanceData = some target := by
  cases fault with
  | some error =>
    exfalso
    cases w <;>
      simp [Worker.complete, Worker.OnError, ConnectWorker.OnError, DisconnectWorker.OnError,
        AuthPasswordWorker.OnError, AuthAgentWorker.OnError, ChannelOpenWorker.OnError,
        ChannelForwardWorker.OnError, ChannelExecWorker.OnError, ChannelReadWorker.OnError,
        ChannelWriteWorker.OnError, ChannelCloseWorker.OnError] at hmem
  | none =>
    cases w with
    | channelOpen v =>
      simp only [Worker.complete, Worker.Execute, Worker.OnOK, ChannelOpenWorker.OnOK] at hmem
      cases instanceData with
      | none => split_ifs at hmem <;> simp at hmem
      | some t =>
        split_ifs at hmem <;> simp at hmem
        rw [hmem]
    | _ =>
      exfalso
      simp only [Worker.complete, Worker.Execute, Worker.OnOK, ConnectWorker.OnOK,
        DisconnectWorker.OnOK, AuthPasswordWorker.OnOK, AuthAgentWorker.OnOK,
        ChannelForwardWorker.OnOK, ChannelExecWorker.OnOK, ChannelReadWorker.OnOK,
        ChannelWriteWorker.OnOK, ChannelCloseWorker.OnOK] at hmem
      (try split_ifs at hmem) <;> simp at hmem

/-- Effects that store through no pointer to the Channel leave the Channel as it is. -/
theorem SSHChannel.applyEffects_of_no_store (address : Nat) (effects : List Effect)
    (hno : Effect.storeOpen address ∉ effects) :
    ∀ self : SSHChannel, SSHChannel.applyEffects address self effects = self := by
  induction effects with
  | nil => intro self; rfl
  | cons e rest ih =>
    intro self
    have hrest : Effect.storeOpen address ∉ rest :=
      fun h => hno (List.mem_cons_of_mem e h)
    have hstep : SSHChannel.applyEffect address self e = self := by
      cases e with
      | resolve _ _ => rfl
      | reject _ _ => rfl
      | storeOpen t =>
        have ht : t ≠ address := by
          intro h
          apply hno
          rw [h]
          exact List.mem_cons_self _ _
        simp [SSHChannel.applyEffect, ht]
    have := ih hrest (SSHChannel.applyEffect address self e)
    simp only [SSHChannel.applyEffects, List.foldl_cons] at this ⊢
    rw [this, hstep]

/-- A method call on a Channel on which `open_` implies a non-empty handle slot:
the implication still holds afterwards, a non-empty slot keeps its handle, no
queued task holds a null channel handle, and the library is not asked whether
a null handle is open. -/
theorem SSHChannel.call_invariant (self : SSHChannel) (c : ChannelCall)
    (hinv : self.open_ = true → self.channel_ ≠ none) :
    ((self.call c).self.open_ = true → (self.call c).self.channel_ ≠ none) ∧
    (self.channel_ ≠ none → (self.call c).self.channel_ = self.channel_) ∧
    (∀ w ∈ (self.call c).queued, w.hasNullChannel = false) ∧
    LibCall.ssh_channel_is_open none ∉ (self.call c).calls := by
  cases hopen : self.open_ with
  | false =>
    cases c with
    | openSession h d =>
      by_cases hc : self.channel_ = none
      · by_cases hh : h = none
        · simp [SSHChannel.call, SSHChannel.OpenSession, hc, hh, hopen]
        · simp [SSHChannel.call, SSHChannel.OpenSession, hc, hh, hopen, Worker.hasNullChannel,
            ChannelOpenWorker.new]
          exact Option.ne_none_iff_isSome.mp hh
      · simp [SSHChannel.call, SSHChannel.OpenSession, hc, hopen]
    | requestForwardTcpIp i h d =>
      by_cases hl : i.length < 2
      · simp [SSHChannel.call, SSHChannel.RequestForwardTcpIp, hl, hopen]
      · cases hu : (arg i 0).Utf8Value with
        | none => simp [SSHChannel.call, SSHChannel.RequestForwardTcpIp, hl, hu, hopen]
        | some rh =>
          cases hp : (arg i 1).Int32Value with
          | none => simp [SSHChannel.call, SSHChannel.RequestForwardTcpIp, hl, hu, hp, hopen]
          | some rp =>
            by_cases hc : self.channel_ = none
            · by_cases hh : h = none
              · simp [SSHChannel.call, SSHChannel.RequestForwardTcpIp, hl, hu, hp, hc, hh,
                  hopen]
              · simp [SSHChannel.call, SSHChannel.RequestForwardTcpIp, hl, hu, hp, hc, hh,
                  hopen, Worker.hasNullChannel, ChannelForwardWorker.new]
                exact Option.ne_none_iff_isSome.mp hh
            · simp [SSHChannel.call, SSHChannel.RequestForwardTcpIp, hl, hu, hp, hc, hopen,
                Worker.hasNullChannel, ChannelForwardWorker.new]
              exact Option.ne_none_iff_isSome.mp hc
    | requestExec i d => simp [SSHChannel.call, SSHChannel.RequestExec, hopen]
    | read i d => simp [SSHChannel.call, SSHChannel.Read, hopen]
    | write i d => simp [SSHChannel.call, SSHChannel.Write, hopen]
    | close d => simp [SSHChannel.call, SSHChannel.Close, hopen]
    | isOpen b => simp [SSHChannel.call, SSHChannel.IsOpen, hopen]
  | true =>
    have hc : self.channel_ ≠ none := hinv hopen
    have hsome : self.channel_.isNone = false := by
      cases hch : self.channel_ with
      | none => exact absurd hch hc
      | some _ => rfl
    cases c with
    | openSession h d => simp [SSHChannel.call, SSHChannel.OpenSession, hc]
    | requestForwardTcpIp i h d =>
      by_cases hl : i.length < 2
      · simp [SSHChannel.call, SSHChannel.RequestForwardTcpIp, hl, hc]
      · cases hu : (arg i 0).Utf8Value with
        | none => simp [SSHChannel.call, SSHChannel.RequestForwardTcpIp, hl, hu, hc]
        | some rh =>
          cases hp : (arg i 1).Int32Value with
          | none => simp [SSHChannel.call, SSHChannel.RequestForwardTcpIp, hl, hu, hp, hc]
          | some rp =>
            simp [SSHChannel.call, SSHChannel.RequestForwardTcpIp, hl, hu, hp, hc,
              Worker.hasNullChannel, ChannelForwardWorker.new, hsome]
    | requestExec i d =>
      simp only [SSHChannel.call, SSHChannel.RequestExec, hopen]
      split_ifs <;> (try split) <;>
        simp [hc, Worker.hasNullChannel, ChannelExecWorker.new, hsome]
    | read i d =>
      simp only [SSHChannel.call, SSHChannel.Read, hopen]
      split_ifs <;> simp [hc, Worker.hasNullChannel, ChannelReadWorker.new, hsome]
    | write i d =>
      simp only [SSHChannel.call, SSHChannel.Write, hopen]
      split_ifs <;> (try split) <;>
        simp [hc, Worker.hasNullChannel, ChannelWriteWorker.new, hsome]
    | close d =>
      simp [SSHChannel.call, SSHChannel.Close, hopen, Worker.hasNullChannel,
        ChannelCloseWorker.new, hsome]
    | isOpen b =>
      simp only [SSHChannel.call, SSHChannel.IsOpen, hopen]
      simp [hc]
      intro h
      exact hc h.symm

/-- One event in the life of a Channel keeps `open_` implying a non-empty handle
slot, and keeps the handle of a non-empty slot. -/
theorem SSHChannel.step_invariant (address : Nat) (instanceData : Option Nat)
    (hdistinct : instanceData ≠ some address) (self : SSHChannel) (e : ChannelEvent)
    (hinv : self.open_ = true → self.channel_ ≠ none) :
    ((SSHChannel.step address instanceData self e).open_ = true →
      (SSHChannel.step address instanceData self e).channel_ ≠ none) ∧
    (self.channel_ ≠ none →
      (SSHChannel.step address instanceData self e).channel_ = self.channel_) := by
  cases e with
  | call c =>
    exact ⟨(SSHChannel.call_invariant self c hinv).1, (SSHChannel.call_invariant self c hinv).2.1⟩
  | taskCompleted w reply fault =>
    have hno : Effect.storeOpen address ∉ w.complete reply fault instanceData :=
      fun h => hdistinct (Worker.complete_store_target w reply fault instanceData address h)
    have hsame : SSHChannel.step address instanceData self (.taskCompleted w reply fault)
        = self := SSHChannel.applyEffects_of_no_store address _ hno self
    rw [hsame]
    exact ⟨hinv, fun _ => rfl⟩

/-- Any sequence of events keeps `open_` implying a non-empty handle slot, and keeps
the handle of a non-empty slot. -/
theorem SSHChannel.after_invariant (address : Nat) (instanceData : Option Nat)
    (hdistinct : instanceData ≠ some address) (events : List ChannelEvent) :
    ∀ self : SSHChannel, (self.open_ = true → self.channel_ ≠ none) →
      ((self.after address instanceData events).open_ = true →
        (self.after address instanceData events).channel_ ≠ none) ∧
      (self.channel_ ≠ none →
        (self.after address instanceData events).channel_ = self.channel_) := by
  induction events with
  | nil => intro self hinv; exact ⟨hinv, fun _ => rfl⟩
  | cons e rest ih =>
    intro self hinv
    have hstep := SSHChannel.step_invariant address instanceData hdistinct self e hinv
    have hrest := ih (SSHChannel.step address instanceData self e) hstep.1
    simp only [SSHChannel.after, List.foldl_cons] at hrest ⊢
    refine ⟨hrest.1, fun hc => ?_⟩
    have h1 := hstep.2 hc
    have h2 := hrest.2 (by rw [h1]; exact hc)
    rw [h2, h1]

/-- No method of a Channel sets `open_`. -/
theorem SSHChannel.call_never_opens (self : SSHChannel) (c : ChannelCall)
    (hclosed : self.open_ = false) : (self.call c).self.open_ = false := by
  cases c with
  | openSession h d =>
    simp only [SSHChannel.call, SSHChannel.OpenSession]
    split_ifs <;> exact hclosed
  | requestExec i d => simp [SSHChannel.call, SSHChannel.RequestExec, hclosed]
  | requestForwardTcpIp i h d =>
    simp only [SSHChannel.call, SSHChannel.RequestForwardTcpIp]
    split_ifs <;> (try split) <;> exact hclosed
  | read i d => simp [SSHChannel.call, SSHChannel.Read, hclosed]
  | write i d => simp [SSHChannel.call, SSHChannel.Write, hclosed]
  | close d => simp [SSHChannel.call, SSHChannel.Close, hclosed]
  | isOpen b => simp [SSHChannel.call, SSHChannel.IsOpen, hclosed]

/-- On a Channel that does not live at the address of the environment's instance
data, no sequence of method calls and task completions sets `open_`. -/
theorem SSHChannel.after_never_opens (address : Nat) (instanceData : Option Nat)
    (hdistinct : instanceData ≠ some address) (events : List ChannelEvent) :
    ∀ self : SSHChannel, self.open_ = false →
      (self.after address instanceData events).open_ = false := by
  induction events with
  | nil => intro self h; exact h
  | cons e rest ih =>
    intro self h
    have hstep : (SSHChannel.step address instanceData self e).open_ = false := by
      cases e with
      | call c => exact SSHChannel.call_never_opens self c h
      | taskCompleted w reply fault =>
        have hno : Effect.storeOpen address ∉ w.complete reply fault instanceData :=
          fun hm => hdistinct
            (Worker.complete_store_target w reply fault instanceData address hm)
        have hsame : SSHChannel.step address instanceData self (.taskCompleted w reply fault)
            = self := SSHChannel.applyEffects_of_no_store address _ hno self
        rw [hsame]
        exact h
    have := ih (SSHChannel.step address instanceData self e) hstep
    simpa [SSHChannel.after] using this

/-- C16 (the code at the failing input): a Channel at address 200, created for
session handle 1 while the constructor reference sits at address 100, after
`openSession()` obtained handle 5 and its task completed with `SSH_OK`. Its
handle slot holds handle 5, and its destructor makes no library call: handle 5
is not freed, and stays in the slot; only the keep-alive reference is
released. The same holds after a failed open task. The destructor of a
Session, in contrast, frees the session handle whether or not the Session is
flagged connected. And on every Channel not living at the address of the
instance data, after every sequence of method calls and task completions, the
destructor makes no library call at all. -/
theorem channel_destructor_never_frees_handle :
    ((SSHChannel.NewInstance (some 1) (.object 10)).after 200 (some 100)
        [.call (.openSession (some 5) 1),
         .taskCompleted (.channelOpen (ChannelOpenWorker.new (some 5) 1)) okReply none]
      ).channel_ = some 5 ∧
    ((SSHChannel.NewInstance (some 1) (.object 10)).after 200 (some 100)
        [.call (.openSession (some 5) 1),
         .taskCompleted (.channelOpen (ChannelOpenWorker.new (some 5) 1)) okReply none]
      ).destroy
      = ({ session_ := some 1, channel_ := some 5, open_ := false, sessionRef_ := none }, []) ∧
    ((SSHChannel.NewInstance (some 1) (.object 10)).after 200 (some 100)
        [.call (.openSession (some 5) 1),
         .taskCompleted (.channelOpen (ChannelOpenWorker.new (some 5) 1)) okReply none]
      ).destroy.2.count (.ssh_channel_free (some 5)) = 0 ∧
    ((SSHChannel.NewInstance (some 1) (.object 10)).after 200 (some 100)
        [.call (.openSession (some 5) 1),
         .taskCompleted (.channelOpen (ChannelOpenWorker.new (some 5) 1))
           (errorReply none) none]
      ).destroy.2 = [] ∧
    (SSHSession.destroy { session_ := some 1, connected_ := false }).2
      = [.ssh_free (some 1)] ∧
    (SSHSession.destroy { session_ := some 1, connected_ := true }).2
      = [.ssh_disconnect (some 1), .ssh_free (some 1)] ∧
    (∀ (address : Nat) (instanceData : Option Nat) (session : Ptr) (sessionRef : JsValue)
        (events : List ChannelEvent), instanceData ≠ some address →
      ((SSHChannel.NewInstance session sessionRef).after address instanceData
        events).destroy.2 = []) := by
  refine ⟨by decide, by decide, by decide, by decide, by decide, by decide, ?_⟩
  intro address instanceData session sessionRef events hdistinct
  have hclosed := SSHChannel.after_never_opens address instanceData hdistinct events
    (SSHChannel.NewInstance session sessionRef) rfl
  simp [SSHChannel.destroy, hclosed]

/-- C17: for a Channel object at an address other than the environment's instance
data (the constructor reference), in every state reached from construction by
method calls and task completions: a non-empty handle slot keeps its handle
through every further sequence of events, `open_` implies a non-empty handle
slot, no method call queues a task holding a null channel handle, and `isOpen`
never asks the library about a null handle. Each method call preserves all of
this from any state in which `open_` implies a non-empty slot. -/
theorem channel_handle_invariant (address : Nat) (instanceData : Option Nat) (session : Ptr)
    (sessionRef : JsValue) (events further : List ChannelEvent) (c : ChannelCall)
    (hdistinct : instanceData ≠ some address) :
    (((SSHChannel.NewInstance session sessionRef).after address instanceData events).channel_
        ≠ none →
      ((SSHChannel.NewInstance session sessionRef).after address instanceData
          (events ++ further)).channel_
        = ((SSHChannel.NewInstance session sessionRef).after address instanceData
            events).channel_) ∧
    (((SSHChannel.NewInstance session sessionRef).after address instanceData events).open_
        = true →
      ((SSHChannel.NewInstance session sessionRef).after address instanceData events).channel_
        ≠ none) ∧
    (∀ w ∈ (((SSHChannel.NewInstance session sessionRef).after address instanceData
        events).call c).queued, w.hasNullChannel = false) ∧
    (∀ answer : Bool, LibCall.ssh_channel_is_open none ∉
      (((SSHChannel.NewInstance session sessionRef).after address instanceData
        events).IsOpen answer).calls) ∧
    (∀ self : SSHChannel, (self.open_ = true → self.channel_ ≠ none) →
      ((self.call c).self.open_ = true → (self.call c).self.channel_ ≠ none) ∧
      (self.channel_ ≠ none → (self.call c).self.channel_ = self.channel_) ∧
      (∀ w ∈ (self.call c).queued, w.hasNullChannel = false) ∧
      LibCall.ssh_channel_is_open none ∉ (self.call c).calls) := by
  have hstart : (SSHChannel.NewInstance session sessionRef).open_ = true →
      (SSHChannel.NewInstance session sessionRef).channel_ ≠ none := by
    intro h
    simp [SSHChannel.NewInstance, SSHChannel.new] at h
  have hreach := SSHChannel.after_invariant address instanceData hdistinct events
    (SSHChannel.NewInstance session sessionRef) hstart
  refine ⟨?_, hreach.1, ?_, ?_, ?_⟩
  · intro hc
    have happ : (SSHChannel.NewInstance session sessionRef).after address instanceData
        (events ++ further)
        = ((SSHChannel.NewInstance session sessionRef).after address instanceData
            events).after address instanceData further := by
      simp [SSHChannel.after, List.foldl_append]
    rw [happ]
    exact (SSHChannel.after_invariant address instanceData hdistinct further _ hreach.1).2 hc
  · exact (SSHChannel.call_invariant _ c hreach.1).2.2.1
  · intro answer
    exact (SSHChannel.call_invariant _ (.isOpen answer) hreach.1).2.2.2
  · intro self hinv
    exact SSHChannel.call_invariant self c hinv

/-- Witness for C17: a Channel at address 200 with the constructor reference at
address 100, after `openSession()` got handle 5 and its task completed with
`SSH_OK`: a later `requestForwardTcpIp` and `close()` leave handle 5 in place. -/
theorem channel_handle_invariant_witness :
    ((SSHChannel.NewInstance (some 1) (.object 10)).after 200 (some 100)
        ([.call (.openSession (some 5) 1),
          .taskCompleted (.channelOpen (ChannelOpenWorker.new (some 5) 1)) okReply none] ++
         [.call (.requestForwardTcpIp [.string "db", .number 5432] (some 6) 2),
          .call (.close 3)])).channel_
      = ((SSHChannel.NewInstance (some 1) (.object 10)).after 200 (some 100)
          [.call (.openSession (some 5) 1),
           .taskCompleted (.channelOpen (ChannelOpenWorker.new (some 5) 1)) okReply
             none]).channel_ :=
  (channel_handle_invariant 200 (some 100) (some 1) (.object 10)
    [.call (.openSession (some 5) 1),
     .taskCompleted (.channelOpen (ChannelOpenWorker.new (some 5) 1)) okReply none]
    [.call (.requestForwardTcpIp [.string "db", .number 5432] (some 6) 2),
     .call (.close 3)]
    (.isOpen true) (by decide)).1 (by decide)

end LibsshNode
